import Mathlib

/-!
# Verification of the PeekAPI / ApiDash Node SDK client core

Shallow embedding of `src/client.ts` (class `ApiDashClient` / `PeekApiClient`)
and the private-address predicate `isPrivateIP`, together with proofs about the
claims on buffering, flushing, retry/backoff, disk spooling, startup recovery,
the HTTPS submitter's error classification, and event admission.

Modelling conventions:
* JavaScript dynamic values are modelled by `JsVal`; `JSON.stringify` by
  `stringifyVal` (canonical key order of `RequestEvent` from `types.ts`);
  `Buffer.byteLength` by `String.utf8ByteSize`.
* JavaScript `String.prototype.slice(0, n)` counts UTF-16 code units; we model
  it with `String.take n` (identical for characters in the Basic Multilingual
  Plane, which covers every input used in the proofs).
* Time (`Date.now()`, `backoffUntil`) is modelled by `ℚ`; `Math.random()` is an
  explicit parameter `r` of the flush step.
* Exceptions/promise rejection are modelled by a `state × Option JsErr` result
  (`jsTry`/`jsFinally` mirror `try/catch/finally`); I/O outcomes that the code
  observes (send result, disk-write failure, `onError` throwing) are explicit
  parameters.
-/

/-- A JavaScript/JSON value, for fields that the code treats dynamically
(`method`, `path`, `consumer_id`, `metadata`). -/
inductive JsVal where
  | null : JsVal
  | bool (b : Bool) : JsVal
  | num (n : Int) : JsVal
  | str (s : String) : JsVal
  | arr (elems : List JsVal) : JsVal
  | obj (fields : List (String × JsVal)) : JsVal


/-- JavaScript truthiness of a value (for `if (event.consumer_id)`,
`if (body)`, `if (retryAfter)`). `NaN` is not modelled. -/
def jsTruthy : JsVal → Bool
  | .null => false
  | .bool b => b
  | .num n => n != 0
  | .str s => s != ""
  | .arr _ => true
  | .obj _ => true

mutual

/-- `String(x)` coercion for a `JsVal`, per JavaScript `ToString`. -/
def jsToString : JsVal → String
  | .null => "null"
  | .bool b => if b then "true" else "false"
  | .num n => toString n
  | .str s => s
  | .arr xs => jsArrToString xs
  | .obj _ => "[object Object]"

/-- `Array.prototype.toString`: elements joined with `","`; `null` elements
render as the empty string. -/
def jsArrToString : List JsVal → String
  | [] => ""
  | [.null] => ""
  | [x] => jsToString x
  | .null :: xs => "," ++ jsArrToString xs
  | x :: xs => jsToString x ++ "," ++ jsArrToString xs

end

/-- The JSON escape of one character, per `JSON.stringify` (quote, backslash,
and control characters; everything else verbatim). -/
def jsonEscapeChar (c : Char) : String :=
  if c = '"' then "\\\""
  else if c = '\\' then "\\\\"
  else if c = '\n' then "\\n"
  else if c = '\r' then "\\r"
  else if c = '\t' then "\\t"
  else if c = '\x08' then "\\b"
  else if c = '\x0c' then "\\f"
  else if c.toNat < 32 then
    "\\u00" ++ String.mk [Nat.digitChar (c.toNat / 16), Nat.digitChar (c.toNat % 16)]
  else String.mk [c]

/-- A JSON string literal: quotes around the escaped characters. -/
def jsonQuote (s : String) : String :=
  "\"" ++ String.join (s.data.map jsonEscapeChar) ++ "\""

mutual

/-- `JSON.stringify` of a `JsVal`. -/
def stringifyVal : JsVal → String
  | .null => "null"
  | .bool b => if b then "true" else "false"
  | .num n => toString n
  | .str s => jsonQuote s
  | .arr xs => "[" ++ stringifyElems xs ++ "]"
  | .obj fs => "\x7b" ++ stringifyFields fs ++ "\x7d"

/-- Array elements of `JSON.stringify`, comma-separated. -/
def stringifyElems : List JsVal → String
  | [] => ""
  | [x] => stringifyVal x
  | x :: xs => stringifyVal x ++ "," ++ stringifyElems xs

/-- Object fields of `JSON.stringify`, comma-separated `"key":value` pairs. -/
def stringifyFields : List (String × JsVal) → String
  | [] => ""
  | [(k, v)] => jsonQuote k ++ ":" ++ stringifyVal v
  | (k, v) :: fs => jsonQuote k ++ ":" ++ stringifyVal v ++ "," ++ stringifyFields fs

end

/-- A `RequestEvent` as handed to `track` by a framework adapter
(`types.ts`): the fields that `track` sanitizes are dynamic (`Option JsVal`,
`none` = absent/`undefined`); the fields it never touches are typed. -/
structure RawEvent where
  method : Option JsVal
  path : Option JsVal
  consumer_id : Option JsVal
  metadata : Option JsVal
  status_code : Int
  response_time_ms : Int
  request_size : Int
  response_size : Int
  timestamp : String


/-- A buffered event after `track`'s sanitization: `method` and `path` are
strings (the code assigns `String(...)` to them); `consumer_id` keeps whatever
value the truthiness check let through. -/
structure Event where
  method : String
  path : String
  consumer_id : Option JsVal
  metadata : Option JsVal
  status_code : Int
  response_time_ms : Int
  request_size : Int
  response_size : Int
  timestamp : String


/-- `String(x ?? "")`: `undefined`/`null` become `""`, everything else is
coerced. -/
def jsToStringOrEmpty : Option JsVal → String
  | none => ""
  | some .null => ""
  | some v => jsToString v

/-- JavaScript `String.prototype.slice(0, n)`: keep the first `n` code
units. -/
def strTake (s : String) (n : Nat) : String := String.mk (s.data.take n)

/-- The sanitization prefix of `track` (client.ts:216-220): coerce and
truncate `method` (16) and `path` (2048); coerce and truncate `consumer_id`
(256) only when it is truthy. Truncation is `slice(0, n)`, i.e. code units. -/
def sanitizeEvent (raw : RawEvent) : Event :=
  { method := strTake (jsToStringOrEmpty raw.method) 16
    path := strTake (jsToStringOrEmpty raw.path) 2048
    consumer_id :=
      match raw.consumer_id with
      | none => none
      | some v => if jsTruthy v then some (.str (strTake (jsToString v) 256)) else some v
    metadata := raw.metadata
    status_code := raw.status_code
    response_time_ms := raw.response_time_ms
    request_size := raw.request_size
    response_size := raw.response_size
    timestamp := raw.timestamp }

/-- The JSON object for a sanitized event, in the canonical key order of
`RequestEvent` (`types.ts`); absent optional fields are omitted, as
`JSON.stringify` omits `undefined`-valued keys. -/
def eventToVal (e : Event) : JsVal :=
  .obj
    ([("method", .str e.method), ("path", .str e.path),
      ("status_code", .num e.status_code),
      ("response_time_ms", .num e.response_time_ms),
      ("request_size", .num e.request_size),
      ("response_size", .num e.response_size)]
     ++ (match e.consumer_id with | some v => [("consumer_id", v)] | none => [])
     ++ (match e.metadata with | some v => [("metadata", v)] | none => [])
     ++ [("timestamp", .str e.timestamp)])

/-- `JSON.stringify(event)` for a sanitized event. -/
def stringifyEvent (e : Event) : String := stringifyVal (eventToVal e)

/-- `Buffer.byteLength(JSON.stringify(event))` (client.ts:225,233). -/
def eventBytes (e : Event) : Nat := (stringifyEvent e).utf8ByteSize

/-- Drop the `metadata` field (`delete event.metadata`, client.ts:227). -/
def stripMetadata (e : Event) : Event := { e with metadata := none }

/-- Client configuration (after constructor defaulting). -/
structure Config where
  batchSize : Nat
  maxBufferSize : Nat
  maxEventBytes : Nat
  maxStorageBytes : Nat


/-- The admission decision of `track` (client.ts:214-245): sanitize, then —
only when a `metadata` field is present — enforce the per-event size limit by
first stripping `metadata` and then dropping the event if it is still too
large. Returns the event to append, or `none` when dropped. -/
def admitEvent (cfg : Config) (raw : RawEvent) : Option Event :=
  let ev := sanitizeEvent raw
  match ev.metadata with
  | none => some ev
  | some _ =>
    if eventBytes ev > cfg.maxEventBytes then
      let ev' := stripMetadata ev
      if eventBytes ev' > cfg.maxEventBytes then none else some ev'
    else some ev

/-! ## Errors, send outcomes, and the exception-carrying result type -/

/-- A JavaScript `Error` as the flush path sees it: the `send` path attaches
`retryable` and `statusCode` fields to the errors it constructs; a transport
error carries neither (`none` = the field is absent on the object). -/
structure JsErr where
  message : String
  retryable : Option Bool
  statusCode : Option Nat

/-- The outcome of `await this.send(events)` as observed by `doFlush`:
the promise resolves, or rejects with an error. -/
inductive SendOutcome where
  | success : SendOutcome
  | failure (err : JsErr) : SendOutcome

/-- `doFlush`'s retryability classifier (client.ts:292):
`(err as any).retryable !== false` — an absent field counts as retryable. -/
def isRetryable (err : JsErr) : Bool := err.retryable != some false

/-- A computation over state `σ` that may also have raised a JavaScript
exception (`some e` = an exception is propagating). -/
def JsResult (σ : Type) : Type := σ × Option JsErr

/-- A normally-completing step. -/
def jsOk {σ : Type} (s : σ) : JsResult σ := (s, none)

/-- A step that raises `e`, leaving state `s` behind. -/
def jsThrow {σ : Type} (s : σ) (e : JsErr) : JsResult σ := (s, some e)

/-- `try { m } catch (e) { handler }`. -/
def jsTry {σ : Type} (m : JsResult σ) (handler : σ → JsErr → JsResult σ) : JsResult σ :=
  match m with
  | (s, none) => (s, none)
  | (s, some e) => handler s e

/-- `try { m } finally { fin }` where the finalizer only mutates state. -/
def jsFinally {σ : Type} (m : JsResult σ) (fin : σ → σ) : JsResult σ :=
  (fin m.1, m.2)

/-! ## Disk spool model -/

/-- One line of the JSONL spool file, as the recovery loop classifies it
(client.ts:483-496): blank (skipped by `!line.trim()`), a line whose
`JSON.parse` fails or does not yield an array (skipped), or a batch. -/
inductive SpoolLine where
  | blank : SpoolLine
  | junk : SpoolLine
  | batch (events : List Event) : SpoolLine

/-- A spool file: its lines and its byte size as `fstat` reports it. -/
structure SpoolFile where
  lines : List SpoolLine
  size : Nat

/-- The two on-disk files the client touches: the primary spool file at
`storagePath` and its `.recovering` sibling. `none` = the file does not
exist. -/
structure Disk where
  primary : Option SpoolFile
  recovering : Option SpoolFile

/-- `JSON.stringify(events) + "\n"` byte length of one appended batch line. -/
def batchLineBytes (events : List Event) : Nat :=
  ("[" ++ stringifyElems (events.map eventToVal) ++ "]").utf8ByteSize + 1

/-- `persistToDiskAsync` / `persistToDiskSync` (client.ts:388-418, 422-457):
no-op on an empty batch; otherwise open the primary file with
`O_APPEND|O_CREAT|O_WRONLY` (creating it if absent), `fstat` the same
descriptor, skip the write when `size >= maxStorageBytes`, else append one
JSONL line. Failures of the underlying I/O are handled by the caller
(`diskFails` below); this is the success-path semantics. -/
def persistToDisk (cfg : Config) (d : Disk) (events : List Event) : Disk :=
  if events.isEmpty then d
  else
    let f := d.primary.getD ⟨[], 0⟩
    if f.size ≥ cfg.maxStorageBytes then { d with primary := some f }
    else { d with primary := some ⟨f.lines ++ [.batch events], f.size + batchLineBytes events⟩ }

/-! ## Client state and the flush engine -/

/-- The mutable state of one client (client.ts:85-97) plus, for the
interleaving model, `pending`: the `events` argument of an in-flight
`doFlush`, drained by `flush()` and held across its `await` of `send`.
`recovered` models `recoveryPath !== null`. `disk` is the external world
this client reads and writes. -/
structure ClientState where
  buffer : List Event
  flushInFlight : Bool
  consecutiveFailures : Nat
  backoffUntil : ℚ
  recovered : Bool
  disk : Disk
  pending : Option (List Event)

/-- `cleanupRecoveryFile` (client.ts:525-534): on the first successful flush,
unlink the `.recovering` file and clear the recorded path. -/
def cleanupRecoveryFile (s : ClientState) : ClientState :=
  if s.recovered then
    { s with disk := { s.disk with recovering := none }, recovered := false }
  else s

/-- The success branch of `doFlush` (client.ts:277-283): reset the failure
counter and the backoff deadline, delete the recovery file. -/
def doFlushSuccess (s : ClientState) : ClientState :=
  cleanupRecoveryFile { s with consecutiveFailures := 0, backoffUntil := 0 }

/-- The `catch` block of `doFlush` (client.ts:284-330). `cbThrows`: the user
`onError` callback throws (swallowed by the inner `try`); `diskFails`: the
spool write fails internally (swallowed inside `persistToDiskAsync`);
`now` is `Date.now()` at the backoff computation; `r` is `Math.random()`. -/
def doFlushCatch (cfg : Config) (events : List Event) (cbThrows diskFails : Bool)
    (now r : ℚ) (s : ClientState) (err : JsErr) : JsResult ClientState :=
  -- try { this.onError(err) } catch { /* never crash */ }
  let s := (jsTry (if cbThrows then jsThrow s ⟨"callback crash", none, none⟩ else jsOk s)
    (fun st _ => jsOk st)).1
  if !isRetryable err then
    -- Non-retryable — persist to disk, don't touch the failure counter
    let s := (jsTry
      (if diskFails then jsThrow s ⟨"disk error", none, none⟩
       else jsOk { s with disk := persistToDisk cfg s.disk events })
      (fun st _ => jsOk st)).1
    jsOk s
  else
    let n := s.consecutiveFailures + 1
    let s : ClientState :=
      if n ≥ 5 then
        -- After max failures, persist to disk instead of dropping, reset counter
        let s := (jsTry
          (if diskFails then jsThrow s ⟨"disk error", none, none⟩
           else jsOk { s with disk := persistToDisk cfg s.disk events })
          (fun st _ => jsOk st)).1
        { s with consecutiveFailures := 0 }
      else
        -- Re-insert only up to remaining capacity
        let capacity : Int := (cfg.maxBufferSize : Int) - (s.buffer.length : Int)
        let buffer' :=
          if 0 < capacity then events.take capacity.toNat ++ s.buffer else s.buffer
        { s with buffer := buffer', consecutiveFailures := n }
    -- Exponential backoff with jitter, guarded by `consecutiveFailures > 0`
    if 0 < s.consecutiveFailures then
      let delay : ℚ := 1000 * 2 ^ (s.consecutiveFailures - 1) * (1/2 + r * (1/2))
      jsOk { s with backoffUntil := now + delay }
    else jsOk s

/-- `await this.send(events)` followed by the success actions: resolves to
the success state, or raises the submitter's error. -/
def attemptSend (s : ClientState) : SendOutcome → JsResult ClientState
  | .success => jsOk (doFlushSuccess s)
  | .failure err => jsThrow s err

/-- `doFlush(events)` (client.ts:275-334): `try { send; success } catch
{ classify } finally { flushInFlight = false }`, with the send outcome,
callback behaviour, disk behaviour, clock and random draw as parameters. -/
def doFlush (cfg : Config) (s : ClientState) (events : List Event) (out : SendOutcome)
    (cbThrows diskFails : Bool) (now r : ℚ) : JsResult ClientState :=
  jsFinally
    (jsTry (attemptSend s out)
      (doFlushCatch cfg events cbThrows diskFails now r))
    (fun st => { st with flushInFlight := false })

/-- The synchronous prefix of `flush()` (client.ts:260-269): the three early
returns, then drain up to `batchSize` events and set the single-flight flag.
Execution suspends at `await send` inside `doFlush`; the drained batch is
parked in `pending`. -/
def flushBegin (cfg : Config) (s : ClientState) (now : ℚ) : ClientState :=
  if s.buffer.isEmpty || s.flushInFlight then s
  else if 0 < s.consecutiveFailures ∧ now < s.backoffUntil then s
  else
    { s with buffer := s.buffer.drop cfg.batchSize,
             flushInFlight := true,
             pending := some (s.buffer.take cfg.batchSize) }

/-- The resumption of an in-flight flush: the parked batch runs through
`doFlush` with the given send outcome. A no-op if no flush is in flight. -/
def flushComplete (cfg : Config) (s : ClientState) (out : SendOutcome)
    (cbThrows diskFails : Bool) (now r : ℚ) : ClientState :=
  match s.pending with
  | none => s
  | some events =>
    (doFlush cfg { s with pending := none } events out cbThrows diskFails now r).1

/-- The observable result of one whole `flush()` call. -/
structure FlushResult where
  state : ClientState
  exn : Option JsErr
  submitted : Option (List Event)

/-- One whole `flush()` call (client.ts:260-273), from guard checks through
the awaited `doFlush`: `exn` is the rejection (if any) of the promise the
caller awaits, `submitted` the batch handed to the HTTPS submitter. -/
def flushRun (cfg : Config) (s : ClientState) (out : SendOutcome)
    (cbThrows diskFails : Bool) (now r : ℚ) : FlushResult :=
  if s.buffer.isEmpty || s.flushInFlight then ⟨s, none, none⟩
  else if 0 < s.consecutiveFailures ∧ now < s.backoffUntil then ⟨s, none, none⟩
  else
    let events := s.buffer.take cfg.batchSize
    let s1 := { s with buffer := s.buffer.drop cfg.batchSize, flushInFlight := true }
    let res := doFlush cfg s1 events out cbThrows diskFails now r
    ⟨res.1, res.2, some events⟩

/-- `track(event)` (client.ts:213-258): admission (sanitize, size-enforce),
unconditional append of an admitted event, then the threshold check
`buffer.length >= batchSize`, whose `flush()` runs synchronously up to its
first `await` (i.e. `flushBegin`). -/
def track (cfg : Config) (s : ClientState) (raw : RawEvent) (now : ℚ) : ClientState :=
  match admitEvent cfg raw with
  | none => s
  | some ev =>
    let s' := { s with buffer := s.buffer ++ [ev] }
    if cfg.batchSize ≤ s'.buffer.length then flushBegin cfg s' now else s'

/-! ## Interleaved operation traces -/

/-- One observable step of the client: a `track` call, the synchronous part of
a `flush()` call (explicit or timer tick), or the completion of the in-flight
send with a given outcome. -/
inductive Op where
  | track (raw : RawEvent) (now : ℚ) : Op
  | flush (now : ℚ) : Op
  | complete (out : SendOutcome) (cbThrows diskFails : Bool) (now r : ℚ) : Op

/-- Apply one operation. -/
def stepOp (cfg : Config) (s : ClientState) : Op → ClientState
  | .track raw now => track cfg s raw now
  | .flush now => flushBegin cfg s now
  | .complete out cbThrows diskFails now r => flushComplete cfg s out cbThrows diskFails now r

/-- Run a trace of operations from a state. -/
def runTrace (cfg : Config) (s : ClientState) (ops : List Op) : ClientState :=
  ops.foldl (stepOp cfg) s

/-- A freshly constructed client before startup recovery: empty buffer, no
flight, no failures, no recorded recovery path. -/
def initialState (d : Disk) : ClientState :=
  { buffer := [], flushInFlight := false, consecutiveFailures := 0,
    backoffUntil := 0, recovered := false, disk := d, pending := none }

/-! ## Startup recovery (`loadFromDisk`) -/

/-- Is a spool line blank (skipped by `if (!line.trim()) continue`)? -/
def SpoolLine.isBlank : SpoolLine → Bool
  | .blank => true
  | _ => false

/-- The inner recovery loop (client.ts:488-492): append the events of one
decoded batch until the buffer reaches `maxBufferSize`. -/
def pushUpTo (maxB : Nat) (buf : List Event) (evs : List Event) : List Event :=
  evs.foldl (fun b e => if maxB ≤ b.length then b else b ++ [e]) buf

/-- The outer recovery loop (client.ts:483-498): blank and unparseable lines
are skipped, batch lines are loaded, and the loop breaks once the buffer
reaches `maxBufferSize`. -/
def loadLines (maxB : Nat) : List SpoolLine → List Event → List Event
  | [], buf => buf
  | line :: rest, buf =>
    let buf' := match line with
      | .batch evs => pushUpTo maxB buf evs
      | _ => buf
    if maxB ≤ buf'.length then buf' else loadLines maxB rest buf'

/-- The concatenation of all decoded batches of a spool file, in order. -/
def flattenBatches : List SpoolLine → List Event
  | [] => []
  | .batch evs :: rest => evs ++ flattenBatches rest
  | _ :: rest => flattenBatches rest

/-- Process the selected recovery source (client.ts:475-509): a source whose
content trims to nothing is unlinked; otherwise its lines are loaded, a
primary source is renamed to the `.recovering` sibling, and the recovery path
is recorded. Read errors (client.ts:511-521) are not modelled. -/
def recoverFromSource (cfg : Config) (s : ClientState) (f : SpoolFile)
    (isPrimary : Bool) : ClientState :=
  if f.lines.all SpoolLine.isBlank then
    -- `if (!content) { fs.unlinkSync(source); return; }`
    if isPrimary then { s with disk := { s.disk with primary := none } }
    else { s with disk := { s.disk with recovering := none } }
  else
    let buffer' := loadLines cfg.maxBufferSize f.lines s.buffer
    let disk' : Disk :=
      if isPrimary then { primary := none, recovering := some f } else s.disk
    { s with buffer := buffer', disk := disk', recovered := true }

/-- `loadFromDisk` (client.ts:464-522): the `.recovering` sibling is the
source if it exists, else the primary spool file if it exists, else no-op. -/
def loadFromDisk (cfg : Config) (s : ClientState) : ClientState :=
  match s.disk.recovering with
  | some f => recoverFromSource cfg s f false
  | none =>
    match s.disk.primary with
    | some f => recoverFromSource cfg s f true
    | none => s

/-! ## The private-address predicate `isPrivateIP` (client.ts:34-73) -/

/-- `toLowerCase` as the `/i` regex flag applies it (ASCII letters). -/
def strLower (s : String) : String := String.mk (s.data.map Char.toLower)

/-- Anchored-at-start match of a literal prefix. -/
def strStartsWith (s pre : String) : Bool := pre.data.isPrefixOf s.data

/-- Is `c` in the inclusive character range `lo`-`hi`? -/
def charIn (c lo hi : Char) : Bool :=
  decide (lo.toNat ≤ c.toNat) && decide (c.toNat ≤ hi.toNat)

/-- The regex tail `(1[6-9]|2\d|3[01])\.` after the literal `172.`. -/
def match172Tail : List Char → Bool
  | c1 :: c2 :: c3 :: _ =>
    ((c1 == '1' && charIn c2 '6' '9') ||
     (c1 == '2' && c2.isDigit) ||
     (c1 == '3' && (c2 == '0' || c2 == '1'))) && c3 == '.'
  | _ => false

/-- The regex tail `(6[4-9]|[7-9]\d|1[01]\d|12[0-7])\.` after the literal
`100.` (two-digit alternatives then a dot, or three-digit then a dot). -/
def match100Tail : List Char → Bool
  | c1 :: c2 :: rest =>
    (((c1 == '6' && charIn c2 '4' '9') || (charIn c1 '7' '9' && c2.isDigit)) &&
      rest.head? == some '.') ||
    (c1 == '1' &&
      match rest with
      | c3 :: c4 :: _ =>
        (((c2 == '0' || c2 == '1') && c3.isDigit) ||
         (c2 == '2' && charIn c3 '0' '7')) && c4 == '.'
      | _ => false)
  | _ => false

/-- Fueled anchored match of a sequence of bounded single-character
repetitions, requiring exactly the literal `1` (then end of string) after
them — the `0{0,4}:{0,4}...0{0,2}1$` alternative of `PRIVATE_IP_RE`. Each
step shortens the pattern or decrements a repetition bound, so any fuel
above the pattern's total weight is exact. -/
def matchSeqFuel : Nat → List (Char × Nat) → List Char → Bool
  | 0, _, _ => false
  | _ + 1, [], s => s == ['1']
  | fuel + 1, (_, 0) :: ps, s => matchSeqFuel fuel ps s
  | fuel + 1, (c, m + 1) :: ps, s =>
    matchSeqFuel fuel ps s ||
      (match s with
       | c' :: rest => c' == c && matchSeqFuel fuel ((c, m) :: ps) rest
       | [] => false)

/-- The matcher with ample fuel (the pattern below weighs 73). -/
def matchSeq (ps : List (Char × Nat)) (s : List Char) : Bool :=
  matchSeqFuel 1000 ps s

/-- The `0{0,4}:{0,4}0{0,4}:{0,4}0{0,4}:{0,4}0{0,4}:{0,4}0{0,4}:{0,4}
0{0,4}:{0,4}0{0,4}:{0,4}0{0,2}1$` alternative: seven groups of up-to-four
zeros and up-to-four colons, then up to two zeros, then `1` at end. -/
def zeroColonPattern : List (Char × Nat) :=
  [('0', 4), (':', 4), ('0', 4), (':', 4), ('0', 4), (':', 4), ('0', 4), (':', 4),
   ('0', 4), (':', 4), ('0', 4), (':', 4), ('0', 4), (':', 4), ('0', 2)]

/-- `PRIVATE_IP_RE.test(ip)` (client.ts:34-35): the case-insensitive anchored
alternation over textual private-address forms. -/
def privateIpRegexTest (ip : String) : Bool :=
  let l := strLower ip
  strStartsWith l "127." || strStartsWith l "10." ||
  (strStartsWith l "172." && match172Tail (l.data.drop 4)) ||
  strStartsWith l "192.168." || strStartsWith l "169.254." ||
  (strStartsWith l "100." && match100Tail (l.data.drop 4)) ||
  strStartsWith l "0." ||
  l == "::1" ||
  matchSeq zeroColonPattern l.data ||
  strStartsWith l "fc" || strStartsWith l "fd" || strStartsWith l "fe80" ||
  strStartsWith l "::ffff:"

/-- Split on `'.'` (the behaviour of `split(".")` for this separator). -/
def splitOnDotAux : List Char → List Char → List String
  | [], acc => [String.mk acc.reverse]
  | '.' :: rest, acc => String.mk acc.reverse :: splitOnDotAux rest []
  | c :: rest, acc => splitOnDotAux rest (c :: acc)

/-- Split a string on `'.'`. -/
def splitOnDot (s : String) : List String := splitOnDotAux s.data []

/-- `Number(p)` for a digit string. -/
def digitsToNat (cs : List Char) : Nat :=
  cs.foldl (fun n c => n * 10 + (c.toNat - '0'.toNat)) 0

/-- The capture of `/^::ffff:(\d+\.\d+\.\d+\.\d+)$/i` (client.ts:48). -/
def v4MappedCapture (ip : String) : Option String :=
  let rest := String.mk (ip.data.drop 7)
  if strStartsWith (strLower ip) "::ffff:" &&
      (let parts := splitOnDot rest
       parts.length == 4 && parts.all (fun p => !p.data.isEmpty && p.data.all Char.isDigit))
  then some rest else none

/-- One octet of `net.isIPv4`: 1-3 decimal digits, no leading zero, ≤ 255. -/
def isValidOctet (p : String) : Bool :=
  !p.data.isEmpty && p.data.all Char.isDigit && decide (p.data.length ≤ 3) &&
  (p.data.length == 1 || p.data.head? != some '0') &&
  decide (digitsToNat p.data ≤ 255)

/-- `net.isIPv4` (Node): four valid dot-separated decimal octets. -/
def isIPv4 (s : String) : Bool :=
  let parts := splitOnDot s
  parts.length == 4 && parts.all isValidOctet

/-- `isPrivateIP(ip)` (client.ts:42-73): regex fast path, then the (dead, see
`v4MappedCapture`) IPv4-mapped branch, then numeric IPv4 range checks. -/
def isPrivateIP (ip : String) : Bool :=
  if privateIpRegexTest ip then true
  else
    match v4MappedCapture ip with
    | some quad => privateIpRegexTest quad
    | none =>
      if isIPv4 ip then
        let parts := (splitOnDot ip).map (fun p => digitsToNat p.data)
        let p0 := parts.getD 0 0
        let p1 := parts.getD 1 0
        (p0 == 0) || (p0 == 10) ||
        (p0 == 100 && decide (64 ≤ p1) && decide (p1 ≤ 127)) ||
        (p0 == 127) || (p0 == 169 && p1 == 254) ||
        (p0 == 172 && decide (16 ≤ p1) && decide (p1 ≤ 31)) ||
        (p0 == 192 && p1 == 168)
      else false

/-! ## The HTTPS submitter (`send`, client.ts:562-637) -/

/-- `RETRYABLE_STATUS_CODES` (client.ts:29). -/
def RETRYABLE_STATUS_CODES : List Nat := [429, 500, 502, 503, 504]

/-- What the response handler observes: the status code (`none` =
`statusCode` undefined), the body chunks (each with its byte length as
`chunk.length`), the `retry-after` header, and whether reading the body
errored. A transport-level failure instead rejects with the raw error. -/
inductive SendInput where
  | response (status : Option Nat) (chunks : List String) (retryAfter : Option String)
      (bodyErr : Bool) : SendInput
  | transportError (err : JsErr) : SendInput

/-- The chunk-collection loop (client.ts:596-603): a chunk is kept whenever
fewer than 1024 bytes have been collected so far (so the last kept chunk may
overshoot). -/
def collectChunks (chunks : List String) : String :=
  (chunks.foldl
    (fun acc c => if acc.2 < 1024 then (acc.1 ++ c, acc.2 + c.utf8ByteSize) else acc)
    ("", 0)).1

/-- The bounded body (client.ts:605): the collected chunks, then
`.slice(0, 1024)` — 1024 UTF-16 code units, not bytes. -/
def boundedBody (chunks : List String) : String := strTake (collectChunks chunks) 1024

/-- `${res.statusCode}` in a template literal: `undefined` prints as such. -/
def statusCodeText : Option Nat → String
  | some n => toString n
  | none => "undefined"

/-- The error message composed for a non-2xx response (client.ts:607-609). -/
def non2xxMessage (status : Option Nat) (body : String) (retryAfter : Option String) :
    String :=
  "Ingestion API returned " ++ statusCodeText status ++
  (if body != "" then ": " ++ body else "") ++
  (match retryAfter with
   | some ra => if ra != "" then " (Retry-After: " ++ ra ++ ")" else ""
   | none => "")

/-- The error object for a non-2xx response (client.ts:610-623): message as
above (empty body when the body read errored), `retryable` from the status
set, `statusCode` from `res.statusCode ?? 0`. -/
def non2xxError (status : Option Nat) (chunks : List String) (retryAfter : Option String)
    (bodyErr : Bool) : JsErr :=
  { message :=
      if bodyErr then non2xxMessage status "" none
      else non2xxMessage status (boundedBody chunks) retryAfter
    retryable := some (RETRYABLE_STATUS_CODES.contains (status.getD 0))
    statusCode := some (status.getD 0) }

/-- `send` (client.ts:562-637): resolve on a (truthy) 2xx status; otherwise
reject with the composed, classified error; reject verbatim on a transport
error. -/
def send : SendInput → Except JsErr Unit
  | .response status chunks retryAfter bodyErr =>
    match status with
    | some sc =>
      if sc ≠ 0 ∧ 200 ≤ sc ∧ sc < 300 then .ok ()
      else .error (non2xxError (some sc) chunks retryAfter bodyErr)
    | none => .error (non2xxError none chunks retryAfter bodyErr)
  | .transportError err => .error err

/-! ## Shared lemmas -/

/-- The `catch` block of `doFlush` completes normally in every branch. -/
theorem doFlushCatch_no_exn (cfg : Config) (events : List Event) (cb df : Bool)
    (now r : ℚ) (s : ClientState) (err : JsErr) :
    (doFlushCatch cfg events cb df now r s err).2 = none := by
  unfold doFlushCatch
  dsimp only [jsTry, jsOk, jsThrow]
  repeat' split
  all_goals rfl

/-- `doFlush` never rejects: the `catch` swallows every failure and the
`finally` always runs. -/
theorem doFlush_no_exn (cfg : Config) (s : ClientState) (events : List Event)
    (out : SendOutcome) (cb df : Bool) (now r : ℚ) :
    (doFlush cfg s events out cb df now r).2 = none := by
  unfold doFlush jsFinally
  cases out with
  | success => rfl
  | failure err =>
    show (jsTry (jsThrow s err) (doFlushCatch cfg events cb df now r)).2 = none
    simpa [jsTry, jsThrow] using doFlushCatch_no_exn cfg events cb df now r s err

/-- Claim C10 (confirmed): the promise returned by `flush()` always resolves
and never rejects, for every outcome of the underlying submission — success,
non-2xx response, transport error, disk-persist failure, and a throwing
`onError` callback are all caught inside `doFlush` — and the flush-in-flight
flag is cleared in every case. -/
theorem flush_always_resolves (cfg : Config) (s : ClientState) (events : List Event)
    (out : SendOutcome) (cb df : Bool) (now r : ℚ) :
    (doFlush cfg s events out cb df now r).2 = none ∧
    (doFlush cfg s events out cb df now r).1.flushInFlight = false ∧
    (flushRun cfg s out cb df now r).exn = none := by
  refine ⟨doFlush_no_exn cfg s events out cb df now r, rfl, ?_⟩
  unfold flushRun
  split
  · rfl
  · split
    · rfl
    · exact doFlush_no_exn cfg _ _ out cb df now r

/-- Claim C4 (confirmed): `flush()` returns immediately — state unchanged,
promise resolved, nothing submitted — whenever the buffer is empty, a flush
is already in flight, or `consecutiveFailures > 0` and the current time is
before `backoffUntil`; in particular a call made while a flush is in flight
never starts a second one. -/
theorem flush_early_return (cfg : Config) (s : ClientState) (out : SendOutcome)
    (cb df : Bool) (now r : ℚ)
    (h : s.buffer = [] ∨ s.flushInFlight = true ∨
      (0 < s.consecutiveFailures ∧ now < s.backoffUntil)) :
    flushRun cfg s out cb df now r = ⟨s, none, none⟩ := by
  unfold flushRun
  rcases h with h | h | h
  · simp [h]
  · simp [h]
  · by_cases hb : (s.buffer.isEmpty || s.flushInFlight) = true
    · simp [hb]
    · simp [hb, h]

/-- Witness for `flush_early_return`: a concrete in-flight state is left
untouched by a second `flush()`. -/
def witnessEvent : Event :=
  { method := "GET", path := "/api/test", consumer_id := none, metadata := none,
    status_code := 200, response_time_ms := 42, request_size := 0,
    response_size := 128, timestamp := "2026-02-20T12:00:00Z" }

def inFlightState : ClientState :=
  { buffer := [witnessEvent], flushInFlight := true, consecutiveFailures := 0,
    backoffUntil := 0, recovered := false, disk := ⟨none, none⟩,
    pending := some [witnessEvent] }

theorem flush_early_return_witness :
    flushRun ⟨100, 10000, 65536, 5242880⟩ inFlightState .success false false 50 0 =
      ⟨inFlightState, none, none⟩ :=
  flush_early_return ⟨100, 10000, 65536, 5242880⟩ inFlightState .success false false 50 0
    (Or.inr (Or.inl rfl))

/-- Completing an in-flight flush on a non-retryable failure (the
`!isRetryable` branch of `doFlush`): persist the batch, touch nothing else,
clear the flag. -/
theorem flushComplete_nonretryable (cfg : Config) (s : ClientState)
    (events : List Event) (err : JsErr) (cb : Bool) (now r : ℚ)
    (hp : s.pending = some events) (hr : isRetryable err = false) :
    flushComplete cfg s (.failure err) cb false now r =
      { s with pending := none, flushInFlight := false,
               disk := persistToDisk cfg s.disk events } := by
  simp only [flushComplete, hp]
  unfold doFlush doFlushCatch
  dsimp only [attemptSend, jsTry, jsThrow, jsOk, jsFinally]
  rw [hr]
  cases cb <;> rfl

/-- Completing an in-flight flush on a retryable failure that reaches the
maximum failure count: persist the batch, reset the counter to zero; the
backoff assignment is skipped because its guard `consecutiveFailures > 0`
sees the already-reset counter. -/
theorem flushComplete_max_failures (cfg : Config) (s : ClientState)
    (events : List Event) (err : JsErr) (cb : Bool) (now r : ℚ)
    (hp : s.pending = some events) (hr : isRetryable err = true)
    (h4 : 4 ≤ s.consecutiveFailures) :
    flushComplete cfg s (.failure err) cb false now r =
      { s with pending := none, flushInFlight := false,
               consecutiveFailures := 0,
               disk := persistToDisk cfg s.disk events } := by
  have h5 : 5 ≤ s.consecutiveFailures + 1 := by omega
  simp only [flushComplete, hp]
  unfold doFlush doFlushCatch
  cases cb <;>
    simp [attemptSend, jsTry, jsThrow, jsOk, jsFinally, hr, h5, ge_iff_le]

/-- Completing an in-flight flush on a retryable failure below the maximum
count: re-insert up to remaining capacity at the front, increment the
counter, set the jittered exponential backoff. -/
theorem flushComplete_retry (cfg : Config) (s : ClientState)
    (events : List Event) (err : JsErr) (cb df : Bool) (now r : ℚ)
    (hp : s.pending = some events) (hr : isRetryable err = true)
    (h4 : s.consecutiveFailures + 1 < 5) :
    flushComplete cfg s (.failure err) cb df now r =
      { s with pending := none, flushInFlight := false,
               consecutiveFailures := s.consecutiveFailures + 1,
               buffer :=
                 if 0 < (cfg.maxBufferSize : Int) - (s.buffer.length : Int) then
                   events.take ((cfg.maxBufferSize : Int) - (s.buffer.length : Int)).toNat
                     ++ s.buffer
                 else s.buffer,
               backoffUntil :=
                 now + 1000 * 2 ^ s.consecutiveFailures * (1/2 + r * (1/2)) } := by
  have h5 : ¬ (5 ≤ s.consecutiveFailures + 1) := by omega
  simp only [flushComplete, hp]
  unfold doFlush doFlushCatch
  cases cb <;> cases df <;>
    simp [attemptSend, jsTry, jsThrow, jsOk, jsFinally, hr, h5, ge_iff_le, Nat.add_sub_cancel]

/-- Default-shaped configuration (client.ts:16-26). -/
def stdConfig : Config := ⟨100, 10000, 65536, 5242880⟩

/-- Claim C8 (confirmed): on a flush failure whose error carries
`retryable = false`, the drained batch is handed to the async disk write,
`consecutiveFailures` and `backoffUntil` are untouched, the in-flight flag is
cleared, and nothing is re-inserted into the buffer. -/
theorem nonretryable_failure_spec (cfg : Config) (s : ClientState)
    (events : List Event) (err : JsErr) (cb : Bool) (now r : ℚ)
    (hp : s.pending = some events) (hr : err.retryable = some false) :
    (flushComplete cfg s (.failure err) cb false now r).disk =
        persistToDisk cfg s.disk events ∧
    (flushComplete cfg s (.failure err) cb false now r).consecutiveFailures =
        s.consecutiveFailures ∧
    (flushComplete cfg s (.failure err) cb false now r).backoffUntil = s.backoffUntil ∧
    (flushComplete cfg s (.failure err) cb false now r).flushInFlight = false ∧
    (flushComplete cfg s (.failure err) cb false now r).buffer = s.buffer := by
  have hri : isRetryable err = false := by simp [isRetryable, hr]
  have he := flushComplete_nonretryable cfg s events err cb now r hp hri
  rw [he]
  exact ⟨rfl, rfl, rfl, rfl, rfl⟩

/-- A 400-response error as `send` builds it. -/
def badRequestErr : JsErr :=
  ⟨"Ingestion API returned 400: \x7b\"error\":\"bad\"\x7d", some false, some 400⟩

/-- A client state with one batch in flight. -/
def oneInFlightState : ClientState :=
  { buffer := [], flushInFlight := true, consecutiveFailures := 0,
    backoffUntil := 0, recovered := false, disk := ⟨none, none⟩,
    pending := some [witnessEvent] }

theorem nonretryable_failure_spec_witness :
    (flushComplete stdConfig oneInFlightState (.failure badRequestErr) false false 50 0).disk =
        persistToDisk stdConfig oneInFlightState.disk [witnessEvent] ∧
    (flushComplete stdConfig oneInFlightState (.failure badRequestErr) false false 50
          0).consecutiveFailures =
        oneInFlightState.consecutiveFailures ∧
    (flushComplete stdConfig oneInFlightState (.failure badRequestErr) false false 50
          0).backoffUntil =
        oneInFlightState.backoffUntil ∧
    (flushComplete stdConfig oneInFlightState (.failure badRequestErr) false false 50
          0).flushInFlight = false ∧
    (flushComplete stdConfig oneInFlightState (.failure badRequestErr) false false 50
          0).buffer = oneInFlightState.buffer :=
  nonretryable_failure_spec stdConfig oneInFlightState [witnessEvent] badRequestErr
    false 50 0 rfl rfl

/-- A retryable 500-response error as `send` builds it. -/
def retryableErr : JsErr := ⟨"Ingestion API returned 500", some true, some 500⟩

/-- A client state that has already failed four times, with a batch in
flight. -/
def fourFailState : ClientState :=
  { buffer := [], flushInFlight := true, consecutiveFailures := 4,
    backoffUntil := 0, recovered := false, disk := ⟨none, none⟩,
    pending := some [witnessEvent] }

/-- Claim C3 counterexample: when the fifth consecutive retryable failure
lands, the code resets `consecutiveFailures` to 0 **before** the backoff
assignment, whose guard `consecutiveFailures > 0` therefore skips it:
`backoffUntil` stays 0 instead of being set to
`now + 1000·2⁴·u ≥ 9000` as the claim requires (here `now = 1000`). The
batch is persisted and the counter reset as claimed. -/
theorem fifth_failure_no_backoff :
    (flushComplete stdConfig fourFailState (.failure retryableErr) false false 1000
        (1/2)).consecutiveFailures = 0 ∧
    (flushComplete stdConfig fourFailState (.failure retryableErr) false false 1000
        (1/2)).backoffUntil = 0 ∧
    (flushComplete stdConfig fourFailState (.failure retryableErr) false false 1000
        (1/2)).backoffUntil < 1000 ∧
    (flushComplete stdConfig fourFailState (.failure retryableErr) false false 1000
        (1/2)).disk.primary.map (fun f => f.lines.length) = some 1 := by
  have he := flushComplete_max_failures stdConfig fourFailState [witnessEvent]
    retryableErr false 1000 (1/2) rfl (by decide) (by decide)
  rw [he]
  refine ⟨rfl, rfl, by norm_num [fourFailState], rfl⟩

/-- Claim C3 as amended: on a retryable failure whose post-increment count
reaches 5, the batch is persisted to disk and `consecutiveFailures` reset to
0, but `backoffUntil` is left unchanged — the jitter-backoff assignment is
guarded by `consecutiveFailures > 0`, which the reset has just falsified.
The in-flight flag is still cleared. -/
theorem max_failures_spill (cfg : Config) (s : ClientState) (events : List Event)
    (err : JsErr) (cb : Bool) (now r : ℚ)
    (hp : s.pending = some events) (hr : isRetryable err = true)
    (h4 : 4 ≤ s.consecutiveFailures) :
    (flushComplete cfg s (.failure err) cb false now r).consecutiveFailures = 0 ∧
    (flushComplete cfg s (.failure err) cb false now r).disk =
        persistToDisk cfg s.disk events ∧
    (flushComplete cfg s (.failure err) cb false now r).backoffUntil = s.backoffUntil ∧
    (flushComplete cfg s (.failure err) cb false now r).flushInFlight = false := by
  have he := flushComplete_max_failures cfg s events err cb now r hp hr h4
  rw [he]
  exact ⟨rfl, rfl, rfl, rfl⟩

theorem max_failures_spill_witness :
    (flushComplete stdConfig fourFailState (.failure retryableErr) false false 2000
        0).consecutiveFailures = 0 ∧
    (flushComplete stdConfig fourFailState (.failure retryableErr) false false 2000
        0).disk = persistToDisk stdConfig fourFailState.disk [witnessEvent] ∧
    (flushComplete stdConfig fourFailState (.failure retryableErr) false false 2000
        0).backoffUntil = fourFailState.backoffUntil ∧
    (flushComplete stdConfig fourFailState (.failure retryableErr) false false 2000
        0).flushInFlight = false :=
  max_failures_spill stdConfig fourFailState [witnessEvent] retryableErr false 2000 0
    rfl (by decide) (by decide)

/-- Claim C5 (confirmed): on a retryable failure with post-increment count
below 5, the failed batch is re-inserted at the front in original order,
truncated to the remaining capacity `maxBufferSize − len` (so the first
`min(|batch|, capacity)` events), the buffer stays a suffix (no event already
buffered is evicted, and later appends land behind the re-inserted events),
the result respects `maxBufferSize`, and the failure counter increments. -/
theorem prepend_front_spec (cfg : Config) (s : ClientState) (events : List Event)
    (err : JsErr) (cb df : Bool) (now r : ℚ)
    (hp : s.pending = some events) (hr : isRetryable err = true)
    (h4 : s.consecutiveFailures + 1 < 5)
    (hlen : s.buffer.length ≤ cfg.maxBufferSize) :
    (flushComplete cfg s (.failure err) cb df now r).buffer =
        events.take (cfg.maxBufferSize - s.buffer.length) ++ s.buffer ∧
    s.buffer <:+ (flushComplete cfg s (.failure err) cb df now r).buffer ∧
    (flushComplete cfg s (.failure err) cb df now r).buffer.length ≤
        cfg.maxBufferSize ∧
    (flushComplete cfg s (.failure err) cb df now r).consecutiveFailures =
        s.consecutiveFailures + 1 := by
  have he := flushComplete_retry cfg s events err cb df now r hp hr h4
  rw [he]
  have hbuf :
      (if 0 < (cfg.maxBufferSize : Int) - (s.buffer.length : Int) then
          events.take ((cfg.maxBufferSize : Int) - (s.buffer.length : Int)).toNat
            ++ s.buffer
        else s.buffer) =
        events.take (cfg.maxBufferSize - s.buffer.length) ++ s.buffer := by
    by_cases hc : s.buffer.length < cfg.maxBufferSize
    · have h0 : 0 < (cfg.maxBufferSize : Int) - (s.buffer.length : Int) := by omega
      rw [if_pos h0]
      have : ((cfg.maxBufferSize : Int) - (s.buffer.length : Int)).toNat =
          cfg.maxBufferSize - s.buffer.length := by omega
      rw [this]
    · have h0 : ¬ (0 < (cfg.maxBufferSize : Int) - (s.buffer.length : Int)) := by omega
      have hz : cfg.maxBufferSize - s.buffer.length = 0 := by omega
      rw [if_neg h0, hz]
      simp
  refine ⟨hbuf, ?_, ?_, rfl⟩
  · rw [hbuf]; exact List.suffix_append _ _
  · rw [hbuf]
    simp only [List.length_append, List.length_take]
    omega

/-- Distinct events for the re-insertion witness. -/
def evA : Event := { witnessEvent with path := "/a" }
def evB : Event := { witnessEvent with path := "/b" }
def evC : Event := { witnessEvent with path := "/c" }
def evD : Event := { witnessEvent with path := "/d" }

/-- A state with one event already buffered and a three-event batch in
flight, capacity 3. -/
def retryWitnessState : ClientState :=
  { buffer := [evD], flushInFlight := true, consecutiveFailures := 0,
    backoffUntil := 0, recovered := false, disk := ⟨none, none⟩,
    pending := some [evA, evB, evC] }

theorem prepend_front_spec_witness :
    (flushComplete ⟨2, 3, 65536, 5242880⟩ retryWitnessState (.failure retryableErr)
        false false 100 0).buffer =
      [evA, evB, evC].take (3 - 1) ++ [evD] ∧
    [evD] <:+ (flushComplete ⟨2, 3, 65536, 5242880⟩ retryWitnessState
        (.failure retryableErr) false false 100 0).buffer ∧
    (flushComplete ⟨2, 3, 65536, 5242880⟩ retryWitnessState (.failure retryableErr)
        false false 100 0).buffer.length ≤ 3 ∧
    (flushComplete ⟨2, 3, 65536, 5242880⟩ retryWitnessState (.failure retryableErr)
        false false 100 0).consecutiveFailures = 0 + 1 :=
  prepend_front_spec ⟨2, 3, 65536, 5242880⟩ retryWitnessState [evA, evB, evC]
    retryableErr false false 100 0 rfl (by decide) (by decide) (by decide)

/-- The inner recovery loop appends exactly the first
`maxBufferSize − len` events of the batch. -/
theorem pushUpTo_eq (maxB : Nat) (evs : List Event) :
    ∀ buf, pushUpTo maxB buf evs = buf ++ evs.take (maxB - buf.length) := by
  induction evs with
  | nil => intro buf; simp [pushUpTo]
  | cons e es ih =>
    intro buf
    unfold pushUpTo
    simp only [List.foldl_cons]
    by_cases h : maxB ≤ buf.length
    · rw [if_pos h]
      have hih := ih buf
      unfold pushUpTo at hih
      rw [hih]
      have h0 : maxB - buf.length = 0 := Nat.sub_eq_zero_of_le h
      simp [h0]
    · rw [if_neg h]
      have hih := ih (buf ++ [e])
      unfold pushUpTo at hih
      rw [hih]
      have hk : maxB - buf.length = (maxB - (buf.length + 1)) + 1 := by omega
      simp only [List.length_append, List.length_cons, List.length_nil, Nat.zero_add]
      rw [hk, List.take_succ_cons, List.append_assoc]
      rfl

/-- The outer recovery loop appends the concatenation of all decoded batches,
truncated at `maxBufferSize`. -/
theorem loadLines_eq (maxB : Nat) (lines : List SpoolLine) :
    ∀ buf, loadLines maxB lines buf =
      buf ++ (flattenBatches lines).take (maxB - buf.length) := by
  induction lines with
  | nil => intro buf; simp [loadLines, flattenBatches]
  | cons line rest ih =>
    intro buf
    cases line with
    | blank =>
      unfold loadLines
      dsimp only
      by_cases h : maxB ≤ buf.length
      · rw [if_pos h]
        have h0 : maxB - buf.length = 0 := Nat.sub_eq_zero_of_le h
        simp [h0, flattenBatches]
      · rw [if_neg h, ih buf]
        simp [flattenBatches]
    | junk =>
      unfold loadLines
      dsimp only
      by_cases h : maxB ≤ buf.length
      · rw [if_pos h]
        have h0 : maxB - buf.length = 0 := Nat.sub_eq_zero_of_le h
        simp [h0, flattenBatches]
      · rw [if_neg h, ih buf]
        simp [flattenBatches]
    | batch evs =>
      unfold loadLines
      dsimp only
      rw [pushUpTo_eq]
      have hflat : flattenBatches (.batch evs :: rest) = evs ++ flattenBatches rest := rfl
      rw [hflat, List.take_append_eq_append_take]
      have hl : (buf ++ evs.take (maxB - buf.length)).length =
          buf.length + min (maxB - buf.length) evs.length := by
        simp [List.length_append, List.length_take]
      by_cases h : maxB ≤ (buf ++ evs.take (maxB - buf.length)).length
      · rw [if_pos h]
        rw [hl] at h
        have h0 : maxB - buf.length - evs.length = 0 := by omega
        rw [h0]
        simp
      · rw [if_neg h, ih]
        rw [hl] at h
        rw [hl]
        have h1 : maxB - (buf.length + min (maxB - buf.length) evs.length) =
            maxB - buf.length - evs.length := by omega
        rw [h1, List.append_assoc]

/-- `try` of a normal completion ignores the handler. -/
theorem jsTry_ok {σ : Type} (s : σ) (h : σ → JsErr → JsResult σ) :
    jsTry (jsOk s) h = jsOk s := rfl

/-- `try` of a raising step runs the handler. -/
theorem jsTry_throw {σ : Type} (s : σ) (e : JsErr) (h : σ → JsErr → JsResult σ) :
    jsTry (jsThrow s e) h = h s e := rfl

/-- A `try/catch` whose handler merely swallows the error keeps the state of
whichever branch ran. -/
theorem swallow_try {σ : Type} (c : Prop) [Decidable c] (s₁ s₂ : σ) (e : JsErr) :
    jsTry (if c then jsThrow s₁ e else jsOk s₂) (fun st _ => jsOk st) =
      if c then jsOk s₁ else jsOk s₂ := by
  split <;> rfl

/-- Completing a flush can only grow the buffer up to `maxBufferSize`
(the re-insertion path); every other branch leaves the buffer alone. -/
theorem flushComplete_buffer_le (cfg : Config) (s : ClientState) (out : SendOutcome)
    (cb df : Bool) (now r : ℚ) :
    (flushComplete cfg s out cb df now r).buffer.length ≤
      max cfg.maxBufferSize s.buffer.length := by
  unfold flushComplete
  cases hpend : s.pending with
  | none => exact le_max_right _ _
  | some events =>
    cases out with
    | success =>
      simp only [doFlush, attemptSend, jsTry_ok, jsFinally, jsOk, doFlushSuccess,
        cleanupRecoveryFile]
      split
      all_goals exact le_max_right _ _
    | failure err =>
      simp only [doFlush, attemptSend, jsTry_throw, jsFinally, doFlushCatch,
        swallow_try, ite_self]
      repeat' split
      all_goals try simp only [jsOk, List.length_append, List.length_take]
      all_goals omega

/-- Startup recovery never grows the buffer past `maxBufferSize`. -/
theorem loadFromDisk_buffer_le (cfg : Config) (s : ClientState) :
    (loadFromDisk cfg s).buffer.length ≤ max cfg.maxBufferSize s.buffer.length := by
  unfold loadFromDisk recoverFromSource
  cases hrec : s.disk.recovering with
  | some f =>
    dsimp only
    split
    · exact le_max_right _ _
    · dsimp only
      rw [loadLines_eq]
      simp only [List.length_append, List.length_take]
      omega
  | none =>
    cases hpri : s.disk.primary with
    | some f =>
      dsimp only
      split
      · exact le_max_right _ _
      · dsimp only
        rw [loadLines_eq]
        simp only [List.length_append, List.length_take]
        omega
    | none => exact le_max_right _ _

/-- `track` appends an admitted event unconditionally; below the flush
threshold the whole effect is exactly one append, with `maxBufferSize`
playing no role. -/
theorem track_appends (cfg : Config) (s : ClientState) (raw : RawEvent) (now : ℚ)
    (ev : Event) (hadm : admitEvent cfg raw = some ev)
    (hth : s.buffer.length + 1 < cfg.batchSize) :
    (track cfg s raw now).buffer = s.buffer ++ [ev] := by
  simp only [track, hadm]
  have hc : ¬ (cfg.batchSize ≤ (s.buffer ++ [ev]).length) := by
    simp only [List.length_append, List.length_cons, List.length_nil]
    omega
  rw [if_neg hc]

/-- A plain adapter-shaped event for traces (no metadata). -/
def plainRaw : RawEvent :=
  { method := some (.str "GET"), path := some (.str "/api/test"),
    consumer_id := none, metadata := none, status_code := 200,
    response_time_ms := 42, request_size := 0, response_size := 128,
    timestamp := "2026-02-20T12:00:00Z" }

/-- `batchSize = 1`, `maxBufferSize = 2`. -/
def tinyConfig : Config := ⟨1, 2, 65536, 5242880⟩

/-- One track whose flush fails retryably (backoff becomes 500 ms), then two
more tracks inside the backoff window, whose triggered flushes are skipped. -/
def overflowTrace : List Op :=
  [.track plainRaw 0, .complete (.failure retryableErr) false false 0 0,
   .track plainRaw 100, .track plainRaw 200]

/-- The sanitized trace event. -/
def c1ev : Event := sanitizeEvent plainRaw

/-- After the first `track`: its threshold flush drained the event. -/
def c1s1 : ClientState :=
  { buffer := [], flushInFlight := true, consecutiveFailures := 0,
    backoffUntil := 0, recovered := false, disk := ⟨none, none⟩,
    pending := some [c1ev] }

/-- After the retryable failure: event re-inserted, backoff until 500 ms. -/
def c1s2 : ClientState :=
  { buffer := [c1ev], flushInFlight := false, consecutiveFailures := 1,
    backoffUntil := 500, recovered := false, disk := ⟨none, none⟩,
    pending := none }

/-- Claim C1 counterexample: with `maxBufferSize = 2`, a concrete interleaving
of `track` calls and one retryable flush failure leaves 3 events in the
buffer — `track` pushes unconditionally and the threshold flushes at times
100 and 200 are skipped by the backoff guard (`backoffUntil = 500`), so the
buffer exceeds `maxBufferSize`. -/
theorem buffer_exceeds_cap :
    (runTrace tinyConfig (initialState ⟨none, none⟩) overflowTrace).buffer.length = 3 ∧
    tinyConfig.maxBufferSize = 2 := by
  refine ⟨?_, rfl⟩
  have h1 : stepOp tinyConfig (initialState ⟨none, none⟩) (.track plainRaw 0) = c1s1 :=
    rfl
  have h2 : stepOp tinyConfig c1s1 (.complete (.failure retryableErr) false false 0 0) =
      c1s2 := by
    have hr := flushComplete_retry tinyConfig c1s1 [c1ev] retryableErr false false 0 0
      rfl (by decide) (by decide)
    show flushComplete tinyConfig c1s1 (.failure retryableErr) false false 0 0 = c1s2
    rw [hr]
    have hbuf : (if 0 < (tinyConfig.maxBufferSize : Int) - (c1s1.buffer.length : Int) then
        List.take ((tinyConfig.maxBufferSize : Int) - (c1s1.buffer.length : Int)).toNat
          [c1ev] ++ c1s1.buffer
      else c1s1.buffer) = [c1ev] := rfl
    rw [hbuf]
    have hback : (0 : ℚ) +
        1000 * 2 ^ c1s1.consecutiveFailures * (1/2 + 0 * (1/2)) = (500 : ℚ) := by
      show (0 : ℚ) + 1000 * 2 ^ (0 : ℕ) * (1/2 + 0 * (1/2)) = (500 : ℚ)
      norm_num
    rw [hback]
    rfl
  have h3 : stepOp tinyConfig c1s2 (.track plainRaw 100) =
      { c1s2 with buffer := [c1ev, c1ev] } := by
    show track tinyConfig c1s2 plainRaw 100 = _
    have hadm : admitEvent tinyConfig plainRaw = some c1ev := rfl
    simp only [track, hadm]
    rw [if_pos (by decide)]
    unfold flushBegin
    rw [if_neg (by decide)]
    rw [if_pos ⟨by decide, by norm_num [c1s2]⟩]
    rfl
  have h4 : stepOp tinyConfig { c1s2 with buffer := [c1ev, c1ev] }
      (.track plainRaw 200) = { c1s2 with buffer := [c1ev, c1ev, c1ev] } := by
    show track tinyConfig { c1s2 with buffer := [c1ev, c1ev] } plainRaw 200 =
      { c1s2 with buffer := [c1ev, c1ev, c1ev] }
    have hadm : admitEvent tinyConfig plainRaw = some c1ev := rfl
    simp only [track, hadm]
    rw [if_pos (by decide)]
    unfold flushBegin
    rw [if_neg (by decide)]
    rw [if_pos ⟨by decide, by norm_num [c1s2]⟩]
    rfl
  have hrun : runTrace tinyConfig (initialState ⟨none, none⟩) overflowTrace =
      stepOp tinyConfig (stepOp tinyConfig (stepOp tinyConfig (stepOp tinyConfig
        (initialState ⟨none, none⟩) (.track plainRaw 0))
        (.complete (.failure retryableErr) false false 0 0))
        (.track plainRaw 100)) (.track plainRaw 200) := rfl
  rw [hrun, h1, h2, h3, h4]
  rfl

/-- Claim C1 as amended: `track` appends an admitted event unconditionally —
below the flush threshold its entire effect is one append, regardless of
`maxBufferSize` — so the buffer can exceed the cap while flushes are skipped;
the cap is respected only by the retry re-insertion path (`doFlush` never
grows the buffer past `max maxBufferSize len`) and by startup recovery
(which stops loading at `maxBufferSize`). -/
theorem buffer_cap_amended :
    (∀ (cfg : Config) (s : ClientState) (raw : RawEvent) (now : ℚ) (ev : Event),
      admitEvent cfg raw = some ev → s.buffer.length + 1 < cfg.batchSize →
      (track cfg s raw now).buffer = s.buffer ++ [ev]) ∧
    (∀ (cfg : Config) (s : ClientState) (out : SendOutcome) (cb df : Bool) (now r : ℚ),
      (flushComplete cfg s out cb df now r).buffer.length ≤
        max cfg.maxBufferSize s.buffer.length) ∧
    (∀ (cfg : Config) (s : ClientState),
      (loadFromDisk cfg s).buffer.length ≤ max cfg.maxBufferSize s.buffer.length) :=
  ⟨fun cfg s raw now ev hadm hth => track_appends cfg s raw now ev hadm hth,
   fun cfg s out cb df now r => flushComplete_buffer_le cfg s out cb df now r,
   fun cfg s => loadFromDisk_buffer_le cfg s⟩

/-- Witness for `buffer_cap_amended`: a concrete `track` onto a buffer that
already holds `maxBufferSize = 2` events (batch threshold not reached) grows
it to 3. -/
def fullBufferState : ClientState :=
  { buffer := [evA, evB], flushInFlight := false, consecutiveFailures := 0,
    backoffUntil := 0, recovered := false, disk := ⟨none, none⟩, pending := none }

theorem buffer_cap_amended_witness :
    (track ⟨100, 2, 65536, 5242880⟩ fullBufferState plainRaw 0).buffer =
      [evA, evB] ++ [sanitizeEvent plainRaw] :=
  buffer_cap_amended.1 ⟨100, 2, 65536, 5242880⟩ fullBufferState plainRaw 0
    (sanitizeEvent plainRaw) rfl (by decide)

/-- Claim C7 counterexample: a primary spool file whose content is blank is
**deleted** by startup recovery — not renamed to the `.recovering` sibling —
and no recovery path is recorded, contradicting the claim that a selected
primary source is always renamed and recorded. -/
theorem blank_spool_deleted_not_renamed :
    (loadFromDisk stdConfig (initialState ⟨some ⟨[], 0⟩, none⟩)).disk.recovering = none ∧
    (loadFromDisk stdConfig (initialState ⟨some ⟨[], 0⟩, none⟩)).disk.primary = none ∧
    (loadFromDisk stdConfig (initialState ⟨some ⟨[], 0⟩, none⟩)).recovered = false :=
  ⟨rfl, rfl, rfl⟩

/-- Claim C7 as amended: startup recovery selects the `.recovering` sibling
if it exists, else the primary spool file, else is a no-op; a source whose
content is blank is deleted outright with no recovery path recorded;
otherwise the decoded batches are appended to the buffer up to
`maxBufferSize`, a primary source is renamed to the `.recovering` sibling,
the recovery path is recorded, and the first successful flush afterwards
unlinks the `.recovering` file and clears the recorded path. -/
theorem startup_recovery_amended :
    (∀ (cfg : Config) (s : ClientState),
      s.disk.recovering = none → s.disk.primary = none → loadFromDisk cfg s = s) ∧
    (∀ (cfg : Config) (s : ClientState) (f : SpoolFile),
      s.disk.recovering = some f → ¬ (f.lines.all SpoolLine.isBlank = true) →
      loadFromDisk cfg s =
        { s with
            buffer := s.buffer ++
              (flattenBatches f.lines).take (cfg.maxBufferSize - s.buffer.length),
            recovered := true }) ∧
    (∀ (cfg : Config) (s : ClientState) (f : SpoolFile),
      s.disk.recovering = none → s.disk.primary = some f →
      ¬ (f.lines.all SpoolLine.isBlank = true) →
      loadFromDisk cfg s =
        { s with
            buffer := s.buffer ++
              (flattenBatches f.lines).take (cfg.maxBufferSize - s.buffer.length),
            disk := ⟨none, some f⟩, recovered := true }) ∧
    (∀ (cfg : Config) (s : ClientState) (f : SpoolFile),
      s.disk.recovering = none → s.disk.primary = some f →
      f.lines.all SpoolLine.isBlank = true →
      loadFromDisk cfg s = { s with disk := { s.disk with primary := none } }) ∧
    (∀ (cfg : Config) (s : ClientState) (events : List Event) (cb df : Bool) (now r : ℚ),
      s.pending = some events → s.recovered = true →
      (flushComplete cfg s .success cb df now r).disk.recovering = none ∧
      (flushComplete cfg s .success cb df now r).recovered = false) := by
  refine ⟨?_, ?_, ?_, ?_, ?_⟩
  · intro cfg s hrec hpri
    simp only [loadFromDisk, hrec, hpri]
  · intro cfg s f hrec hblank
    simp only [loadFromDisk, hrec]
    unfold recoverFromSource
    rw [if_neg hblank]
    rw [loadLines_eq]
    rfl
  · intro cfg s f hrec hpri hblank
    simp only [loadFromDisk, hrec, hpri]
    unfold recoverFromSource
    rw [if_neg hblank]
    rw [loadLines_eq]
    rfl
  · intro cfg s f hrec hpri hblank
    simp only [loadFromDisk, hrec, hpri]
    unfold recoverFromSource
    rw [if_pos hblank]
    simp [hrec]
  · intro cfg s events cb df now r hp hrecd
    simp only [flushComplete, hp, doFlush, attemptSend, jsTry_ok, jsFinally, jsOk,
      doFlushSuccess, cleanupRecoveryFile]
    simp [hrecd]
    exact ⟨rfl, rfl⟩

/-- A one-batch primary spool file. -/
def oneBatchFile : SpoolFile := ⟨[SpoolLine.batch [evA]], 20⟩

theorem startup_recovery_amended_witness :
    loadFromDisk stdConfig (initialState ⟨some oneBatchFile, none⟩) =
      { initialState ⟨some oneBatchFile, none⟩ with
          buffer := (initialState ⟨some oneBatchFile, none⟩).buffer ++
            (flattenBatches oneBatchFile.lines).take
              (stdConfig.maxBufferSize -
                (initialState ⟨some oneBatchFile, none⟩).buffer.length),
          disk := ⟨none, some oneBatchFile⟩, recovered := true } :=
  startup_recovery_amended.2.2.1 stdConfig (initialState ⟨some oneBatchFile, none⟩)
    oneBatchFile rfl rfl (by decide)

/-- An event whose `method` is seventeen three-byte characters. -/
def euroRaw : RawEvent :=
  { plainRaw with method := some (.str (String.mk (List.replicate 17 '€'))) }

/-- An event whose `consumer_id` is the (falsy) number 0. -/
def zeroIdRaw : RawEvent := { plainRaw with consumer_id := some (.num 0) }

/-- Claim C6 counterexample: truncation is by UTF-16 code units, not bytes —
a 17-character `method` of three-byte characters is truncated to 16
characters = 48 bytes and admitted as such, exceeding the claimed 16-byte
cap; and a falsy non-string `consumer_id` (the number 0) is left uncoerced. -/
theorem truncation_not_bytes :
    16 < (sanitizeEvent euroRaw).method.utf8ByteSize ∧
    admitEvent stdConfig euroRaw = some (sanitizeEvent euroRaw) ∧
    (sanitizeEvent zeroIdRaw).consumer_id = some (.num 0) :=
  ⟨by decide, rfl, rfl⟩

/-- The `metadata` field survives sanitization unchanged. -/
theorem sanitize_metadata (raw : RawEvent) :
    (sanitizeEvent raw).metadata = raw.metadata := rfl

/-- Claim C6 as amended: `track` (a total function in this model — the broad
catch never surfaces an exception) coerces `method` and `path` to strings
truncated to 16 and 2048 UTF-16 code units, coerces and truncates a *truthy*
`consumer_id` to 256 code units (a falsy one is left as-is), and — only when
a `metadata` field is present — drops `metadata` if the serialized byte
length exceeds `maxEventBytes` and drops the event only if it still exceeds
it after stripping; an event without `metadata` is never size-checked and is
always appended. -/
theorem track_admission_amended :
    (∀ raw : RawEvent, (sanitizeEvent raw).method.length ≤ 16) ∧
    (∀ raw : RawEvent, (sanitizeEvent raw).path.length ≤ 2048) ∧
    (∀ (raw : RawEvent) (v : JsVal), raw.consumer_id = some v → jsTruthy v = true →
      (sanitizeEvent raw).consumer_id = some (.str (strTake (jsToString v) 256)) ∧
      (strTake (jsToString v) 256).length ≤ 256) ∧
    (∀ (cfg : Config) (raw : RawEvent), raw.metadata = none →
      admitEvent cfg raw = some (sanitizeEvent raw)) ∧
    (∀ (cfg : Config) (raw : RawEvent), raw.metadata.isSome = true →
      eventBytes (sanitizeEvent raw) ≤ cfg.maxEventBytes →
      admitEvent cfg raw = some (sanitizeEvent raw)) ∧
    (∀ (cfg : Config) (raw : RawEvent), raw.metadata.isSome = true →
      cfg.maxEventBytes < eventBytes (sanitizeEvent raw) →
      eventBytes (stripMetadata (sanitizeEvent raw)) ≤ cfg.maxEventBytes →
      admitEvent cfg raw = some (stripMetadata (sanitizeEvent raw))) ∧
    (∀ (cfg : Config) (raw : RawEvent),
      admitEvent cfg raw = none ↔
        raw.metadata.isSome = true ∧
        cfg.maxEventBytes < eventBytes (sanitizeEvent raw) ∧
        cfg.maxEventBytes < eventBytes (stripMetadata (sanitizeEvent raw))) := by
  refine ⟨?_, ?_, ?_, ?_, ?_, ?_, ?_⟩
  · intro raw
    exact List.length_take_le 16 _
  · intro raw
    exact List.length_take_le 2048 _
  · intro raw v hv htr
    constructor
    · simp only [sanitizeEvent, hv, htr, if_true]
    · exact List.length_take_le 256 _
  · intro cfg raw hmeta
    simp only [admitEvent, sanitize_metadata, hmeta]
  · intro cfg raw hsome hle
    obtain ⟨v, hv⟩ := Option.isSome_iff_exists.mp hsome
    simp only [admitEvent, sanitize_metadata, hv, gt_iff_lt, not_lt.mpr hle, if_false]
  · intro cfg raw hsome h1 h2
    obtain ⟨v, hv⟩ := Option.isSome_iff_exists.mp hsome
    simp only [admitEvent, sanitize_metadata, hv, gt_iff_lt, if_pos h1,
      not_lt.mpr h2, if_false]
  · intro cfg raw
    constructor
    · intro h
      cases hmv : raw.metadata with
      | none => simp [admitEvent, sanitize_metadata, hmv] at h
      | some v =>
        simp only [admitEvent, sanitize_metadata, hmv, gt_iff_lt] at h
        refine ⟨by simp [hmv], ?_, ?_⟩
        · by_contra h1
          simp [if_neg h1] at h
        · by_contra h2
          rw [if_pos ?_] at h
          · simp [if_neg h2] at h
          · by_contra h1
            simp [if_neg h1] at h
    · rintro ⟨hsome, h1, h2⟩
      obtain ⟨v, hv⟩ := Option.isSome_iff_exists.mp hsome
      simp only [admitEvent, sanitize_metadata, hv, gt_iff_lt, if_pos h1, if_pos h2]

/-- An event carrying 300 bytes of metadata. -/
def bigMetaRaw : RawEvent :=
  { plainRaw with
      metadata := some (.obj [("payload", .str (String.mk (List.replicate 300 'x')))]) }

set_option maxRecDepth 4000 in
theorem track_admission_amended_witness :
    admitEvent ⟨100, 10000, 256, 5242880⟩ bigMetaRaw =
      some (stripMetadata (sanitizeEvent bigMetaRaw)) :=
  track_admission_amended.2.2.2.2.2.1 ⟨100, 10000, 256, 5242880⟩ bigMetaRaw
    rfl (by decide) (by decide)

/-- String append is associative. -/
theorem strAppend_assoc (a b c : String) : a ++ b ++ c = a ++ (b ++ c) :=
  String.ext (by simp [String.data_append, List.append_assoc])

/-- The empty string is a right identity for append. -/
theorem strAppend_empty (a : String) : a ++ "" = a :=
  String.ext (by simp [String.data_append])

/-- A raw transport-level error: no `retryable`, no `statusCode` field. -/
def transportErr : JsErr := ⟨"ECONNRESET", none, none⟩

/-- A single 1200-byte (400-character) response-body chunk. -/
def euroChunk : String := String.mk (List.replicate 400 '€')

set_option maxRecDepth 8000 in
/-- Claim C9 counterexample: a transport error is rejected verbatim carrying
**no** `statusCode` field (not 0); and the "bounded" body is truncated to
1024 UTF-16 code units, so a 400-character three-byte-per-character chunk
yields a 1200-byte body embedded whole in the error message — more than the
claimed 1024 bytes. -/
theorem send_transport_and_body_counterexample :
    send (.transportError transportErr) = .error transportErr ∧
    transportErr.statusCode = none ∧
    1024 < (boundedBody [euroChunk]).utf8ByteSize ∧
    (non2xxError (some 404) [euroChunk] none false).message =
      "Ingestion API returned 404: " ++ boundedBody [euroChunk] :=
  ⟨rfl, rfl, by decide, rfl⟩

/-- Claim C9 as amended: any (truthy) 2xx status resolves; a non-2xx status
rejects with the composed error whose `retryable` is true exactly for
{429, 500, 502, 503, 504}, whose `statusCode` equals the response status, and
whose message starts with the status code and embeds the bounded body —
bounded as: chunks collected while under 1024 bytes, then truncated to 1024
UTF-16 code units (so its byte length may exceed 1024 for non-ASCII bodies);
a failed body read yields the same error with empty body; a transport error
is rejected verbatim, with no `statusCode` field, and the flush classifier
treats its absent `retryable` as retryable. -/
theorem send_classification_amended :
    (∀ (sc : Nat) (chunks : List String) (ra : Option String) (be : Bool),
      200 ≤ sc → sc < 300 → send (.response (some sc) chunks ra be) = .ok ()) ∧
    (∀ (sc : Nat) (chunks : List String) (ra : Option String) (be : Bool),
      ¬ (200 ≤ sc ∧ sc < 300) →
      send (.response (some sc) chunks ra be) =
        .error (non2xxError (some sc) chunks ra be)) ∧
    (∀ (sc : Nat) (chunks : List String) (ra : Option String) (be : Bool),
      ((non2xxError (some sc) chunks ra be).retryable = some true ↔
        sc = 429 ∨ sc = 500 ∨ sc = 502 ∨ sc = 503 ∨ sc = 504) ∧
      (non2xxError (some sc) chunks ra be).statusCode = some sc) ∧
    (∀ (sc : Nat) (chunks : List String) (ra : Option String),
      ∃ rest, (non2xxError (some sc) chunks ra false).message =
        "Ingestion API returned " ++ (toString sc ++ rest)) ∧
    (∀ (sc : Nat) (chunks : List String) (ra : Option String),
      (non2xxError (some sc) chunks ra true).message =
        "Ingestion API returned " ++ toString sc) ∧
    (∀ chunks : List String, (boundedBody chunks).length ≤ 1024) ∧
    (∀ e : JsErr, send (.transportError e) = .error e) ∧
    (∀ e : JsErr, e.retryable = none → isRetryable e = true) := by
  refine ⟨?_, ?_, ?_, ?_, ?_, ?_, ?_, ?_⟩
  · intro sc chunks ra be h1 h2
    simp only [send]
    rw [if_pos ⟨by omega, h1, h2⟩]
  · intro sc chunks ra be hn
    simp only [send]
    rw [if_neg (fun h => hn ⟨h.2.1, h.2.2⟩)]
  · intro sc chunks ra be
    constructor
    · simp only [non2xxError, Option.getD, Option.some.injEq]
      simp [RETRYABLE_STATUS_CODES, List.contains]
    · rfl
  · intro sc chunks ra
    refine ⟨(if boundedBody chunks != "" then ": " ++ boundedBody chunks else "") ++
      (match ra with
       | some r => if r != "" then " (Retry-After: " ++ r ++ ")" else ""
       | none => ""), ?_⟩
    show non2xxMessage (some sc) (boundedBody chunks) ra = _
    unfold non2xxMessage statusCodeText
    rw [strAppend_assoc, strAppend_assoc]
  · intro sc chunks ra
    show non2xxMessage (some sc) "" none = _
    unfold non2xxMessage statusCodeText
    simp [strAppend_empty]
  · intro chunks
    exact List.length_take_le 1024 _
  · intro e
    rfl
  · intro e he
    simp [isRetryable, he]

theorem send_classification_amended_witness :
    send (.response (some 404) ["oops"] (some "30") false) =
      .error (non2xxError (some 404) ["oops"] (some "30") false) :=
  send_classification_amended.2.1 404 ["oops"] (some "30") false (by decide)

/-- A list is a `isPrefixOf` any extension of itself. -/
theorem isPrefixOf_append_self (l₁ l₂ : List Char) :
    l₁.isPrefixOf (l₁ ++ l₂) = true := by
  induction l₁ with
  | nil => simp [List.isPrefixOf]
  | cons a l ih => simp [List.isPrefixOf, ih]

/-- `Char.toNat` determines the character. -/
theorem char_toNat_inj {a b : Char} (h : a.toNat = b.toNat) : a = b :=
  Char.ext (UInt32.ext h)

/-- `Char.isDigit` as bounds on the code point. -/
theorem isDigit_iff (c : Char) : c.isDigit = true ↔ 48 ≤ c.toNat ∧ c.toNat ≤ 57 := by
  simp only [Char.isDigit, Bool.and_eq_true, decide_eq_true_eq]
  exact Iff.rfl

/-- Character equality as code-point equality. -/
theorem char_beq_toNat (a b : Char) : (a == b) = decide (a.toNat = b.toNat) := by
  by_cases h : a.toNat = b.toNat
  · have : a = b := char_toNat_inj h
    simp [this, h]
  · have hne : a ≠ b := fun e => h (by rw [e])
    simp [h, beq_eq_false_iff_ne.mpr hne]

/-- `Char.isDigit` as a decidable code-point test. -/
theorem isDigit_eq_decide (c : Char) :
    c.isDigit = (decide (48 ≤ c.toNat) && decide (c.toNat ≤ 57)) := rfl

/-- `toLower` fixes every character below the uppercase range. -/
theorem toLower_of_small {c : Char} (h : c.toNat < 65) : c.toLower = c := by
  simp only [Char.toLower]
  rw [if_neg]
  omega

/-- `toLower` fixes decimal digits. -/
theorem toLower_digit {c : Char} (h : c.isDigit = true) : c.toLower = c :=
  toLower_of_small (by have := (isDigit_iff c).mp h; omega)

/-- `toLower` maps a list of digits to itself. -/
theorem map_toLower_digits (l : List Char) (h : ∀ c ∈ l, c.isDigit = true) :
    l.map Char.toLower = l := by
  induction l with
  | nil => rfl
  | cons c l' ih =>
    rw [List.map_cons, toLower_digit (h c (by simp)), ih (fun x hx => h x (by simp [hx]))]

/-- A digit is not a dot. -/
theorem digit_ne_dot {c : Char} (h : c.isDigit = true) : ¬(c = '.') := by
  intro hc
  rw [hc] at h
  exact absurd h (by decide)

/-- A digit is not a dot (boolean form). -/
theorem digit_beq_dot (c : Char) (h : c.isDigit = true) : (c == '.') = false :=
  beq_eq_false_iff_ne.mpr (digit_ne_dot h)

/-- `digitsToNat` of a single digit. -/
theorem digitsToNat_one (c : Char) : digitsToNat [c] = c.toNat - 48 := by
  show 0 * 10 + (c.toNat - '0'.toNat) = c.toNat - 48
  have h0 : '0'.toNat = 48 := rfl
  omega

/-- `digitsToNat` of two digits. -/
theorem digitsToNat_two (c1 c2 : Char) :
    digitsToNat [c1, c2] = (c1.toNat - 48) * 10 + (c2.toNat - 48) := by
  show (0 * 10 + (c1.toNat - '0'.toNat)) * 10 + (c2.toNat - '0'.toNat) = _
  have h0 : '0'.toNat = 48 := rfl
  omega

/-- `digitsToNat` of three digits. -/
theorem digitsToNat_three (c1 c2 c3 : Char) :
    digitsToNat [c1, c2, c3] =
      ((c1.toNat - 48) * 10 + (c2.toNat - 48)) * 10 + (c3.toNat - 48) := by
  show ((0 * 10 + (c1.toNat - '0'.toNat)) * 10 + (c2.toNat - '0'.toNat)) * 10
      + (c3.toNat - '0'.toNat) = _
  have h0 : '0'.toNat = 48 := rfl
  omega

/-- `splitOnDotAux` walks over a non-dot character. -/
theorem splitOnDotAux_cons_ne (c : Char) (rest acc : List Char) (h : ¬(c = '.')) :
    splitOnDotAux (c :: rest) acc = splitOnDotAux rest (c :: acc) := by
  rw [splitOnDotAux]
  exact h

/-- `splitOnDotAux` closes a field at a dot. -/
theorem splitOnDotAux_dot (rest acc : List Char) :
    splitOnDotAux ('.' :: rest) acc = String.mk acc.reverse :: splitOnDotAux rest [] := rfl

/-- `splitOnDotAux` on a dot-free list yields one field. -/
theorem splitOnDotAux_nodot (d : List Char) (acc : List Char)
    (h : ∀ c ∈ d, ¬(c = '.')) :
    splitOnDotAux d acc = [String.mk (acc.reverse ++ d)] := by
  induction d generalizing acc with
  | nil => simp [splitOnDotAux]
  | cons c d' ih =>
    rw [splitOnDotAux_cons_ne c d' acc (h c (by simp)), ih _ (fun x hx => h x (by simp [hx]))]
    simp

/-- `splitOnDotAux` peels one dot-free field before a dot. -/
theorem splitOnDotAux_append (d : List Char) (r acc : List Char)
    (h : ∀ c ∈ d, ¬(c = '.')) :
    splitOnDotAux (d ++ '.' :: r) acc =
      String.mk (acc.reverse ++ d) :: splitOnDotAux r [] := by
  induction d generalizing acc with
  | nil => simp [splitOnDotAux_dot]
  | cons c d' ih =>
    rw [List.cons_append, splitOnDotAux_cons_ne c _ acc (h c (by simp)),
      ih _ (fun x hx => h x (by simp [hx]))]
    simp

/-- The zero-colon alternative never matches a string whose first character
is neither `0` nor `:` and which has at least two characters. -/
theorem matchSeqFuel_two_head (fuel : Nat) :
    ∀ (ps : List (Char × Nat)), (∀ p ∈ ps, p.1 = '0' ∨ p.1 = ':') →
    ∀ (c1 c2 : Char) (rest : List Char), ¬(c1 = '0') → ¬(c1 = ':') →
    matchSeqFuel fuel ps (c1 :: c2 :: rest) = false := by
  induction fuel with
  | zero => intro ps hps c1 c2 rest h0 hc; rfl
  | succ n ih =>
    intro ps hps c1 c2 rest h0 hc
    match ps with
    | [] =>
      show ((c1 :: c2 :: rest) == ['1']) = false
      show (c1 == '1' && ((c2 :: rest).beq [])) = false
      show (c1 == '1' && false) = false
      exact Bool.and_false _
    | (c, 0) :: ps' =>
      show matchSeqFuel n ps' _ = false
      exact ih ps' (fun p hp => hps p (by simp [hp])) c1 c2 rest h0 hc
    | (c, m + 1) :: ps' =>
      show (matchSeqFuel n ps' _ ||
        (c1 == c && matchSeqFuel n ((c, m) :: ps') (c2 :: rest))) = false
      have hcc : (c1 == c) = false := by
        rcases hps (c, m + 1) (by simp) with h | h <;>
          exact beq_eq_false_iff_ne.mpr (by simp at h; rw [h]; assumption)
      rw [ih ps' (fun p hp => hps p (by simp [hp])) c1 c2 rest h0 hc, hcc]
      rfl

/-- `String.mk` is left inverse to `String.data`. -/
theorem string_mk_data (s : String) : String.mk s.data = s := rfl

/-- Unpack `isValidOctet` into its component facts. -/
theorem validOctet_parts (p : String) (h : isValidOctet p = true) :
    (∀ c ∈ p.data, c.isDigit = true) ∧ (1 ≤ p.data.length ∧ p.data.length ≤ 3) ∧
    (p.data.length = 1 ∨ p.data.head? ≠ some '0') ∧ digitsToNat p.data ≤ 255 := by
  simp only [isValidOctet, Bool.and_eq_true, Bool.not_eq_true', Bool.or_eq_true,
    decide_eq_true_eq, beq_iff_eq, bne_iff_ne, List.all_eq_true] at h
  obtain ⟨⟨⟨⟨hne, hdig⟩, hlen⟩, hlead⟩, hval⟩ := h
  refine ⟨hdig, ⟨?_, hlen⟩, hlead, hval⟩
  cases hd : p.data with
  | nil => rw [hd] at hne; simp at hne
  | cons a l => simp

/-- Digit lists contain no dot. -/
theorem nodot_of_digits {l : List Char} (h : ∀ c ∈ l, c.isDigit = true) :
    ∀ c ∈ l, ¬(c = '.') := fun c hc => digit_ne_dot (h c hc)

/-- The `172.` tail `(1[6-9]|2\\d|3[01])\\.` on a valid octet followed by a
dot: matches exactly the values 16-31. -/
theorem match172Tail_spec (l r : List Char)
    (hdig : ∀ c ∈ l, c.isDigit = true) (hlen : 1 ≤ l.length ∧ l.length ≤ 3)
    (hlead : l.length = 1 ∨ l.head? ≠ some '0') :
    match172Tail (l ++ '.' :: r) =
      decide (16 ≤ digitsToNat l ∧ digitsToNat l ≤ 31) := by
  match l with
  | [] => simp at hlen
  | [d1] =>
    have h1 := (isDigit_iff d1).mp (hdig d1 (by simp))
    have hval : digitsToNat [d1] = d1.toNat - 48 := digitsToNat_one d1
    match r with
    | [] =>
      show false = _
      rw [eq_comm, decide_eq_false_iff_not]
      omega
    | x :: r' =>
      show (((d1 == '1' && charIn '.' '6' '9') ||
             (d1 == '2' && Char.isDigit '.') ||
             (d1 == '3' && ('.' == '0' || '.' == '1'))) && (x == '.')) = _
      have e1 : charIn '.' '6' '9' = false := rfl
      have e2 : Char.isDigit '.' = false := rfl
      have e3 : (('.' == '0') || ('.' == '1')) = false := rfl
      rw [e1, e2, e3, Bool.and_false, Bool.and_false, Bool.and_false,
        Bool.or_false, Bool.or_false, Bool.false_and, eq_comm, decide_eq_false_iff_not]
      omega
  | [d1, d2] =>
    have h1 := (isDigit_iff d1).mp (hdig d1 (by simp))
    have h2 := (isDigit_iff d2).mp (hdig d2 (by simp))
    have hne : ¬(d1.toNat = 48) := by
      rcases hlead with h | h
      · simp at h
      · intro hh
        exact h (by rw [show d1 = '0' from char_toNat_inj hh]; rfl)
    have hval : digitsToNat [d1, d2] = (d1.toNat - 48) * 10 + (d2.toNat - 48) :=
      digitsToNat_two d1 d2
    show (((d1 == '1' && charIn d2 '6' '9') ||
           (d1 == '2' && d2.isDigit) ||
           (d1 == '3' && (d2 == '0' || d2 == '1'))) && ('.' == '.')) = _
    rw [show (('.' : Char) == '.') = true from rfl, Bool.and_true]
    rw [char_beq_toNat d1 '1', char_beq_toNat d1 '2', char_beq_toNat d1 '3',
      char_beq_toNat d2 '0', char_beq_toNat d2 '1', isDigit_eq_decide]
    show ((decide (d1.toNat = 49) && (decide (54 ≤ d2.toNat) && decide (d2.toNat ≤ 57))) ||
          (decide (d1.toNat = 50) && (decide (48 ≤ d2.toNat) && decide (d2.toNat ≤ 57))) ||
          (decide (d1.toNat = 51) && (decide (d2.toNat = 48) || decide (d2.toNat = 49)))) = _
    rw [Bool.eq_iff_iff]
    simp only [Bool.or_eq_true, Bool.and_eq_true, decide_eq_true_eq]
    omega
  | [d1, d2, d3] =>
    have h1 := (isDigit_iff d1).mp (hdig d1 (by simp))
    have h2 := (isDigit_iff d2).mp (hdig d2 (by simp))
    have h3 := (isDigit_iff d3).mp (hdig d3 (by simp))
    have hne : ¬(d1.toNat = 48) := by
      rcases hlead with h | h
      · simp at h
      · intro hh
        exact h (by rw [show d1 = '0' from char_toNat_inj hh]; rfl)
    have hval := digitsToNat_three d1 d2 d3
    show ((_ || _ || _) && (d3 == '.')) = _
    rw [digit_beq_dot d3 (hdig d3 (by simp)), Bool.and_false, eq_comm,
      decide_eq_false_iff_not]
    omega
  | d1 :: d2 :: d3 :: d4 :: l' => simp at hlen

/-- The `100.` tail `(6[4-9]|[7-9]\\d|1[01]\\d|12[0-7])\\.` on a valid octet
followed by a dot: matches exactly the values 64-127. -/
theorem match100Tail_spec (l r : List Char)
    (hdig : ∀ c ∈ l, c.isDigit = true) (hlen : 1 ≤ l.length ∧ l.length ≤ 3)
    (hlead : l.length = 1 ∨ l.head? ≠ some '0') :
    match100Tail (l ++ '.' :: r) =
      decide (64 ≤ digitsToNat l ∧ digitsToNat l ≤ 127) := by
  match l with
  | [] => simp at hlen
  | [d1] =>
    have h1 := (isDigit_iff d1).mp (hdig d1 (by simp))
    have hval : digitsToNat [d1] = d1.toNat - 48 := digitsToNat_one d1
    have hfirst : ((d1 == '6' && charIn '.' '4' '9') ||
        (charIn d1 '7' '9' && Char.isDigit '.')) = false := by
      rw [show charIn '.' '4' '9' = false from rfl,
        show Char.isDigit '.' = false from rfl, Bool.and_false, Bool.and_false,
        Bool.or_false]
    match r with
    | [] =>
      show ((((d1 == '6' && charIn '.' '4' '9') ||
              (charIn d1 '7' '9' && Char.isDigit '.')) && (List.head? [] == some '.')) ||
            (d1 == '1' && false)) = _
      rw [hfirst, Bool.false_and, Bool.and_false, Bool.or_false, eq_comm,
        decide_eq_false_iff_not]
      omega
    | [x] =>
      show ((((d1 == '6' && charIn '.' '4' '9') ||
              (charIn d1 '7' '9' && Char.isDigit '.')) && (some x == some '.')) ||
            (d1 == '1' && false)) = _
      rw [hfirst, Bool.false_and, Bool.and_false, Bool.or_false, eq_comm,
        decide_eq_false_iff_not]
      omega
    | x :: y :: r' =>
      show ((((d1 == '6' && charIn '.' '4' '9') ||
              (charIn d1 '7' '9' && Char.isDigit '.')) && (some x == some '.')) ||
            (d1 == '1' &&
              ((((('.' == '0') || ('.' == '1')) && x.isDigit) ||
                (('.' == '2') && charIn x '0' '7')) && (y == '.')))) = _
      rw [hfirst, Bool.false_and,
        show (('.' == '0') || ('.' == '1')) = false from rfl,
        show (('.' : Char) == '2') = false from rfl, Bool.false_and, Bool.false_and,
        Bool.or_false, Bool.false_and, Bool.and_false, Bool.or_false, eq_comm,
        decide_eq_false_iff_not]
      omega
  | [d1, d2] =>
    have h1 := (isDigit_iff d1).mp (hdig d1 (by simp))
    have h2 := (isDigit_iff d2).mp (hdig d2 (by simp))
    have hne : ¬(d1.toNat = 48) := by
      rcases hlead with h | h
      · simp at h
      · intro hh
        exact h (by rw [show d1 = '0' from char_toNat_inj hh]; rfl)
    have hval : digitsToNat [d1, d2] = (d1.toNat - 48) * 10 + (d2.toNat - 48) :=
      digitsToNat_two d1 d2
    have hsecond : ∀ m : Bool, (d1 == '1' && m) = false → True := fun _ _ => trivial
    match r with
    | [] =>
      show ((((d1 == '6' && charIn d2 '4' '9') ||
              (charIn d1 '7' '9' && d2.isDigit)) && (some '.' == some '.')) ||
            (d1 == '1' && false)) = _
      rw [show ((some '.' : Option Char) == some '.') = true from rfl, Bool.and_true,
        Bool.and_false, Bool.or_false, char_beq_toNat d1 '6', isDigit_eq_decide]
      show ((decide (d1.toNat = 54) && (decide (52 ≤ d2.toNat) && decide (d2.toNat ≤ 57))) ||
            ((decide (55 ≤ d1.toNat) && decide (d1.toNat ≤ 57)) &&
             (decide (48 ≤ d2.toNat) && decide (d2.toNat ≤ 57)))) = _
      rw [Bool.eq_iff_iff]
      simp only [Bool.or_eq_true, Bool.and_eq_true, decide_eq_true_eq]
      omega
    | x :: r' =>
      show ((((d1 == '6' && charIn d2 '4' '9') ||
              (charIn d1 '7' '9' && d2.isDigit)) && (some '.' == some '.')) ||
            (d1 == '1' &&
              (((((d2 == '0') || (d2 == '1')) && Char.isDigit '.') ||
                ((d2 == '2') && charIn '.' '0' '7')) && (x == '.')))) = _
      rw [show ((some '.' : Option Char) == some '.') = true from rfl, Bool.and_true,
        show Char.isDigit '.' = false from rfl,
        show charIn '.' '0' '7' = false from rfl, Bool.and_false, Bool.and_false,
        Bool.or_false, Bool.false_and, Bool.and_false, Bool.or_false,
        char_beq_toNat d1 '6', isDigit_eq_decide]
      show ((decide (d1.toNat = 54) && (decide (52 ≤ d2.toNat) && decide (d2.toNat ≤ 57))) ||
            ((decide (55 ≤ d1.toNat) && decide (d1.toNat ≤ 57)) &&
             (decide (48 ≤ d2.toNat) && decide (d2.toNat ≤ 57)))) = _
      rw [Bool.eq_iff_iff]
      simp only [Bool.or_eq_true, Bool.and_eq_true, decide_eq_true_eq]
      omega
  | [d1, d2, d3] =>
    have h1 := (isDigit_iff d1).mp (hdig d1 (by simp))
    have h2 := (isDigit_iff d2).mp (hdig d2 (by simp))
    have h3 := (isDigit_iff d3).mp (hdig d3 (by simp))
    have hne : ¬(d1.toNat = 48) := by
      rcases hlead with h | h
      · simp at h
      · intro hh
        exact h (by rw [show d1 = '0' from char_toNat_inj hh]; rfl)
    have hval := digitsToNat_three d1 d2 d3
    show ((((d1 == '6' && charIn d2 '4' '9') ||
            (charIn d1 '7' '9' && d2.isDigit)) && (d3 == '.')) ||
          (d1 == '1' &&
            (((((d2 == '0') || (d2 == '1')) && d3.isDigit) ||
              ((d2 == '2') && charIn d3 '0' '7')) && (('.' : Char) == '.')))) = _
    rw [digit_beq_dot d3 (hdig d3 (by simp)), Bool.and_false, Bool.false_or,
      show (('.' : Char) == '.') = true from rfl, Bool.and_true,
      char_beq_toNat d1 '1', char_beq_toNat d2 '0', char_beq_toNat d2 '1',
      char_beq_toNat d2 '2', isDigit_eq_decide]
    show (decide (d1.toNat = 49) &&
          (((decide (d2.toNat = 48) || decide (d2.toNat = 49)) &&
            (decide (48 ≤ d3.toNat) && decide (d3.toNat ≤ 57))) ||
           (decide (d2.toNat = 50) && (decide (48 ≤ d3.toNat) && decide (d3.toNat ≤ 55))))) = _
    rw [Bool.eq_iff_iff]
    simp only [Bool.or_eq_true, Bool.and_eq_true, decide_eq_true_eq]
    omega
  | d1 :: d2 :: d3 :: d4 :: l' => simp at hlen

/-- On a dotted quad `172.b.c.d` of valid octets, `isPrivateIP` holds
exactly when `16 ≤ b ≤ 31`. -/
theorem isPrivateIP_172_spec (s2 s3 s4 : String)
    (h2 : isValidOctet s2 = true) (h3 : isValidOctet s3 = true)
    (h4 : isValidOctet s4 = true) :
    isPrivateIP ("172." ++ s2 ++ "." ++ s3 ++ "." ++ s4) =
      decide (16 ≤ digitsToNat s2.data ∧ digitsToNat s2.data ≤ 31) := by
  obtain ⟨hd2, hl2, hh2, _⟩ := validOctet_parts s2 h2
  obtain ⟨hd3, _, _, _⟩ := validOctet_parts s3 h3
  obtain ⟨hd4, _, _, _⟩ := validOctet_parts s4 h4
  set q : String := "172." ++ s2 ++ "." ++ s3 ++ "." ++ s4 with hq
  have hdata : q.data = '1' :: '7' :: '2' :: '.' ::(s2.data ++ '.' :: (s3.data ++ '.' :: s4.data)) := by
    rw [hq]
    simp [String.data_append, show "172.".data = ['1','7','2','.'] from rfl,
      show ".".data = ['.'] from rfl]
  have hld : (strLower q).data = '1' :: '7' :: '2' :: '.' ::(s2.data ++ '.' :: (s3.data ++ '.' :: s4.data)) := by
    show q.data.map Char.toLower = _
    rw [hdata]
    simp only [List.map_cons, List.map_append,
      map_toLower_digits s2.data hd2, map_toLower_digits s3.data hd3,
      map_toLower_digits s4.data hd4,
      show Char.toLower '1' = '1' from rfl, show Char.toLower '7' = '7' from rfl,
      show Char.toLower '2' = '2' from rfl, show Char.toLower '.' = '.' from rfl]
  have h127 : strStartsWith (strLower q) "127." = false := by
    simp only [strStartsWith]; rw [hld]; rfl
  have h10 : strStartsWith (strLower q) "10." = false := by
    simp only [strStartsWith]; rw [hld]; rfl
  have h172 : strStartsWith (strLower q) "172." = true := by
    simp only [strStartsWith]; rw [hld]
    exact isPrefixOf_append_self "172.".data _
  have h192 : strStartsWith (strLower q) "192.168." = false := by
    simp only [strStartsWith]; rw [hld]; rfl
  have h169 : strStartsWith (strLower q) "169.254." = false := by
    simp only [strStartsWith]; rw [hld]; rfl
  have h100 : strStartsWith (strLower q) "100." = false := by
    simp only [strStartsWith]; rw [hld]; rfl
  have h0 : strStartsWith (strLower q) "0." = false := by
    simp only [strStartsWith]; rw [hld]; rfl
  have hfc : strStartsWith (strLower q) "fc" = false := by
    simp only [strStartsWith]; rw [hld]; rfl
  have hfd : strStartsWith (strLower q) "fd" = false := by
    simp only [strStartsWith]; rw [hld]; rfl
  have hfe80 : strStartsWith (strLower q) "fe80" = false := by
    simp only [strStartsWith]; rw [hld]; rfl
  have hffff : strStartsWith (strLower q) "::ffff:" = false := by
    simp only [strStartsWith]; rw [hld]; rfl
  have hcol : ((strLower q) == "::1") = false := by
    refine beq_eq_false_iff_ne.mpr (fun h => ?_)
    have hdq := congrArg String.data h
    rw [hld] at hdq
    simp at hdq
  have hz : matchSeq zeroColonPattern (strLower q).data = false := by
    rw [hld]
    exact matchSeqFuel_two_head 1000 zeroColonPattern (by decide) '1' '7' _
      (by decide) (by decide)
  have hreg : privateIpRegexTest q =
      decide (16 ≤ digitsToNat s2.data ∧ digitsToNat s2.data ≤ 31) := by
    simp only [privateIpRegexTest]
    rw [h127, h10, h172, h192, h169, h100, h0, hcol, hz, hfc, hfd, hfe80, hffff]
    simp only [Bool.false_or, Bool.or_false, Bool.true_and, Bool.false_and]
    rw [hld]
    show match172Tail (s2.data ++ '.' :: (s3.data ++ '.' :: s4.data)) = _
    exact match172Tail_spec s2.data _ hd2 hl2 hh2
  have hv4 : v4MappedCapture q = none := by
    simp only [v4MappedCapture]
    rw [hffff]
    simp
  have hsplit : splitOnDot q = ["172", s2, s3, s4] := by
    simp only [splitOnDot]
    rw [hdata]
    rw [splitOnDotAux_cons_ne '1' _ _ (by decide), splitOnDotAux_cons_ne '7' _ _ (by decide),
      splitOnDotAux_cons_ne '2' _ _ (by decide), splitOnDotAux_dot,
      splitOnDotAux_append s2.data _ [] (nodot_of_digits hd2),
      splitOnDotAux_append s3.data _ [] (nodot_of_digits hd3),
      splitOnDotAux_nodot s4.data [] (nodot_of_digits hd4)]
    simp [string_mk_data, show String.mk (List.reverse ['2','7','1']) = "172" from rfl]
  have hv172 : isValidOctet "172" = true := by decide
  have hip4 : isIPv4 q = true := by
    simp only [isIPv4]
    rw [hsplit]
    simp [hv172, h2, h3, h4]
  simp only [isPrivateIP, hv4, hip4, hsplit, if_true]
  rw [hreg]
  cases hc : decide (16 ≤ digitsToNat s2.data ∧ digitsToNat s2.data ≤ 31) with
  | true => simp
  | false =>
    have hc' : ¬(16 ≤ digitsToNat s2.data ∧ digitsToNat s2.data ≤ 31) :=
      of_decide_eq_false hc
    simp [show digitsToNat "172".data = 172 from rfl]
    omega

/-- On a dotted quad `100.b.c.d` of valid octets, `isPrivateIP` holds
exactly when `64 ≤ b ≤ 127` — so every `100.128.0.0/9` address is public. -/
theorem isPrivateIP_100_spec (s2 s3 s4 : String)
    (h2 : isValidOctet s2 = true) (h3 : isValidOctet s3 = true)
    (h4 : isValidOctet s4 = true) :
    isPrivateIP ("100." ++ s2 ++ "." ++ s3 ++ "." ++ s4) =
      decide (64 ≤ digitsToNat s2.data ∧ digitsToNat s2.data ≤ 127) := by
  obtain ⟨hd2, hl2, hh2, _⟩ := validOctet_parts s2 h2
  obtain ⟨hd3, _, _, _⟩ := validOctet_parts s3 h3
  obtain ⟨hd4, _, _, _⟩ := validOctet_parts s4 h4
  set q : String := "100." ++ s2 ++ "." ++ s3 ++ "." ++ s4 with hq
  have hdata : q.data = '1' :: '0' :: '0' :: '.' ::(s2.data ++ '.' :: (s3.data ++ '.' :: s4.data)) := by
    rw [hq]
    simp [String.data_append, show "100.".data = ['1','0','0','.'] from rfl,
      show ".".data = ['.'] from rfl]
  have hld : (strLower q).data = '1' :: '0' :: '0' :: '.' ::(s2.data ++ '.' :: (s3.data ++ '.' :: s4.data)) := by
    show q.data.map Char.toLower = _
    rw [hdata]
    simp only [List.map_cons, List.map_append,
      map_toLower_digits s2.data hd2, map_toLower_digits s3.data hd3,
      map_toLower_digits s4.data hd4,
      show Char.toLower '1' = '1' from rfl, show Char.toLower '0' = '0' from rfl,
      show Char.toLower '.' = '.' from rfl]
  have h127 : strStartsWith (strLower q) "127." = false := by
    simp only [strStartsWith]; rw [hld]; rfl
  have h10 : strStartsWith (strLower q) "10." = false := by
    simp only [strStartsWith]; rw [hld]; rfl
  have h172 : strStartsWith (strLower q) "172." = false := by
    simp only [strStartsWith]; rw [hld]; rfl
  have h192 : strStartsWith (strLower q) "192.168." = false := by
    simp only [strStartsWith]; rw [hld]; rfl
  have h169 : strStartsWith (strLower q) "169.254." = false := by
    simp only [strStartsWith]; rw [hld]; rfl
  have h100 : strStartsWith (strLower q) "100." = true := by
    simp only [strStartsWith]; rw [hld]
    exact isPrefixOf_append_self "100.".data _
  have h0 : strStartsWith (strLower q) "0." = false := by
    simp only [strStartsWith]; rw [hld]; rfl
  have hfc : strStartsWith (strLower q) "fc" = false := by
    simp only [strStartsWith]; rw [hld]; rfl
  have hfd : strStartsWith (strLower q) "fd" = false := by
    simp only [strStartsWith]; rw [hld]; rfl
  have hfe80 : strStartsWith (strLower q) "fe80" = false := by
    simp only [strStartsWith]; rw [hld]; rfl
  have hffff : strStartsWith (strLower q) "::ffff:" = false := by
    simp only [strStartsWith]; rw [hld]; rfl
  have hcol : ((strLower q) == "::1") = false := by
    refine beq_eq_false_iff_ne.mpr (fun h => ?_)
    have hdq := congrArg String.data h
    rw [hld] at hdq
    simp at hdq
  have hz : matchSeq zeroColonPattern (strLower q).data = false := by
    rw [hld]
    exact matchSeqFuel_two_head 1000 zeroColonPattern (by decide) '1' '0' _
      (by decide) (by decide)
  have hreg : privateIpRegexTest q =
      decide (64 ≤ digitsToNat s2.data ∧ digitsToNat s2.data ≤ 127) := by
    simp only [privateIpRegexTest]
    rw [h127, h10, h172, h192, h169, h100, h0, hcol, hz, hfc, hfd, hfe80, hffff]
    simp only [Bool.false_or, Bool.or_false, Bool.true_and, Bool.false_and]
    rw [hld]
    show match100Tail (s2.data ++ '.' :: (s3.data ++ '.' :: s4.data)) = _
    exact match100Tail_spec s2.data _ hd2 hl2 hh2
  have hv4 : v4MappedCapture q = none := by
    simp only [v4MappedCapture]
    rw [hffff]
    simp
  have hsplit : splitOnDot q = ["100", s2, s3, s4] := by
    simp only [splitOnDot]
    rw [hdata]
    rw [splitOnDotAux_cons_ne '1' _ _ (by decide), splitOnDotAux_cons_ne '0' _ _ (by decide),
      splitOnDotAux_cons_ne '0' _ _ (by decide), splitOnDotAux_dot,
      splitOnDotAux_append s2.data _ [] (nodot_of_digits hd2),
      splitOnDotAux_append s3.data _ [] (nodot_of_digits hd3),
      splitOnDotAux_nodot s4.data [] (nodot_of_digits hd4)]
    simp [string_mk_data, show String.mk (List.reverse ['0','0','1']) = "100" from rfl]
  have hv100 : isValidOctet "100" = true := by decide
  have hip4 : isIPv4 q = true := by
    simp only [isIPv4]
    rw [hsplit]
    simp [hv100, h2, h3, h4]
  simp only [isPrivateIP, hv4, hip4, hsplit, if_true]
  rw [hreg]
  cases hc : decide (64 ≤ digitsToNat s2.data ∧ digitsToNat s2.data ≤ 127) with
  | true => simp
  | false =>
    have hc' : ¬(64 ≤ digitsToNat s2.data ∧ digitsToNat s2.data ≤ 127) :=
      of_decide_eq_false hc
    simp [show digitsToNat "100".data = 100 from rfl]
    omega

/-- Any string whose ASCII-lowercased form begins with one of the regex's
unguarded textual prefixes matches `PRIVATE_IP_RE`. -/
theorem privateIP_prefix_sound (s : String)
    (h : strStartsWith (strLower s) "127." = true ∨
         strStartsWith (strLower s) "10." = true ∨
         strStartsWith (strLower s) "192.168." = true ∨
         strStartsWith (strLower s) "169.254." = true ∨
         strStartsWith (strLower s) "0." = true ∨
         strStartsWith (strLower s) "fc" = true ∨
         strStartsWith (strLower s) "fd" = true ∨
         strStartsWith (strLower s) "fe80" = true ∨
         strStartsWith (strLower s) "::ffff:" = true) :
    isPrivateIP s = true := by
  have hre : privateIpRegexTest s = true := by
    simp only [privateIpRegexTest]
    rcases h with h | h | h | h | h | h | h | h | h <;> simp [h]
  simp [isPrivateIP, hre]

set_option maxRecDepth 8000 in
/-- Claim C2 counterexample: `isPrivateIP` returns true for
`::ffff:1.1.1.1` (the claim requires false — the regex's bare `::ffff:`
alternative matches every IPv4-mapped address before the embedded IPv4 is
examined); returns true for the hostname `fcdn.example.com` (the claim says
every non-IP string is false — the bare `fc` alternative matches); and
returns false for `febf::1`, which is inside `fe80::/10` (the `fe80`
alternative only matches the literal text `fe80`). -/
theorem isPrivateIP_counterexample :
    isPrivateIP "::ffff:1.1.1.1" = true ∧
    isPrivateIP "fcdn.example.com" = true ∧
    isPrivateIP "febf::1" = false :=
  ⟨by decide, by decide, by decide⟩

set_option maxRecDepth 8000 in
/-- Claim C2 as amended: `isPrivateIP` returns true for every string whose
ASCII-lowercased form begins with `127.`, `10.`, `192.168.`, `169.254.`,
`0.`, `fc`, `fd`, `fe80` or `::ffff:` — covering every canonical dotted quad
of `127.0.0.0/8`, `10.0.0.0/8`, `192.168.0.0/16`, `169.254.0.0/16` and
`0.0.0.0/8`, every canonical lowercase textual form of `fc00::/7`, every
string with prefix `::ffff:` regardless of the embedded IPv4, and non-IP
strings such as hostnames. On dotted quads of valid octets, `172.b.c.d` is
private exactly when `16 ≤ b ≤ 31` and `100.b.c.d` exactly when
`64 ≤ b ≤ 127`, so all of `172.16.0.0/12` and `100.64.0.0/10` are true and
all of `100.128.0.0/9` (and the rest of `172.0.0.0/8`) are false. `fe80`
matches only as a literal prefix, a proper subset of `fe80::/10`
(`fe80::1` true, `febf::1` false); `::1`, its zero-expanded spelling
`0:0:0:0:0:0:0:1` and the bare string `1` are true; sample public addresses
are false. -/
theorem isPrivateIP_amended :
    (∀ s : String,
      strStartsWith (strLower s) "127." = true ∨
      strStartsWith (strLower s) "10." = true ∨
      strStartsWith (strLower s) "192.168." = true ∨
      strStartsWith (strLower s) "169.254." = true ∨
      strStartsWith (strLower s) "0." = true ∨
      strStartsWith (strLower s) "fc" = true ∨
      strStartsWith (strLower s) "fd" = true ∨
      strStartsWith (strLower s) "fe80" = true ∨
      strStartsWith (strLower s) "::ffff:" = true →
      isPrivateIP s = true) ∧
    (∀ s2 s3 s4 : String,
      isValidOctet s2 = true → isValidOctet s3 = true → isValidOctet s4 = true →
      isPrivateIP ("172." ++ s2 ++ "." ++ s3 ++ "." ++ s4) =
        decide (16 ≤ digitsToNat s2.data ∧ digitsToNat s2.data ≤ 31) ∧
      isPrivateIP ("100." ++ s2 ++ "." ++ s3 ++ "." ++ s4) =
        decide (64 ≤ digitsToNat s2.data ∧ digitsToNat s2.data ≤ 127)) ∧
    (isPrivateIP "127.0.0.1" = true ∧ isPrivateIP "127.255.255.255" = true ∧
     isPrivateIP "10.0.0.1" = true ∧ isPrivateIP "10.255.255.255" = true ∧
     isPrivateIP "172.16.0.1" = true ∧ isPrivateIP "172.31.255.255" = true ∧
     isPrivateIP "172.15.255.255" = false ∧ isPrivateIP "172.32.0.1" = false ∧
     isPrivateIP "192.168.0.1" = true ∧ isPrivateIP "192.168.255.255" = true ∧
     isPrivateIP "169.254.1.1" = true ∧
     isPrivateIP "100.64.0.1" = true ∧ isPrivateIP "100.127.255.255" = true ∧
     isPrivateIP "100.128.0.1" = false ∧ isPrivateIP "100.255.255.255" = false ∧
     isPrivateIP "0.0.0.0" = true ∧
     isPrivateIP "::1" = true ∧ isPrivateIP "0:0:0:0:0:0:0:1" = true ∧
     isPrivateIP "fc00::1" = true ∧ isPrivateIP "fd12:3456:789a::1" = true ∧
     isPrivateIP "fe80::1" = true ∧ isPrivateIP "febf::1" = false ∧
     isPrivateIP "::ffff:10.0.0.1" = true ∧ isPrivateIP "::ffff:1.1.1.1" = true ∧
     isPrivateIP "8.8.8.8" = false ∧ isPrivateIP "1.1.1.1" = false ∧
     isPrivateIP "93.184.216.34" = false ∧ isPrivateIP "203.0.113.1" = false ∧
     isPrivateIP "example.com" = false ∧ isPrivateIP "fcdn.example.com" = true ∧
     isPrivateIP "10.example.com" = true ∧ isPrivateIP "1" = true) :=
  ⟨privateIP_prefix_sound,
   fun s2 s3 s4 h2 h3 h4 =>
     ⟨isPrivateIP_172_spec s2 s3 s4 h2 h3 h4, isPrivateIP_100_spec s2 s3 s4 h2 h3 h4⟩,
   by decide⟩

set_option maxRecDepth 8000 in
theorem isPrivateIP_amended_witness :
    isPrivateIP "::FFFF:203.0.113.9" = true ∧
    isPrivateIP ("172." ++ "20" ++ "." ++ "1" ++ "." ++ "2") =
      decide (16 ≤ digitsToNat "20".data ∧ digitsToNat "20".data ≤ 31) ∧
    isPrivateIP ("100." ++ "128" ++ "." ++ "0" ++ "." ++ "1") =
      decide (64 ≤ digitsToNat "128".data ∧ digitsToNat "128".data ≤ 127) :=
  ⟨isPrivateIP_amended.1 "::FFFF:203.0.113.9"
     (Or.inr (Or.inr (Or.inr (Or.inr (Or.inr (Or.inr (Or.inr (Or.inr (by decide))))))))),
   (isPrivateIP_amended.2.1 "20" "1" "2" (by decide) (by decide) (by decide)).1,
   (isPrivateIP_amended.2.1 "128" "0" "1" (by decide) (by decide) (by decide)).2⟩

theorem flush_always_resolves_witness :
    (doFlush stdConfig oneInFlightState [witnessEvent] (.failure retryableErr)
        true true 0 0).2 = none ∧
    (doFlush stdConfig oneInFlightState [witnessEvent] (.failure retryableErr)
        true true 0 0).1.flushInFlight = false ∧
    (flushRun stdConfig oneInFlightState (.failure retryableErr) true true 0 0).exn =
      none :=
  flush_always_resolves stdConfig oneInFlightState [witnessEvent]
    (.failure retryableErr) true true 0 0
